import Mathlib

/-!
Verification of the scaleway-csi driver specification against a shallow
embedding of its Go source.

Strings from the Go source are modelled as lists of characters (`GoStr`);
Go's `int64`/`int32` are modelled as `Int` and unsigned sizes/counters as
`Nat`, with explicit `% 2 ^ 32` where the source converts through `uint32`.
Every definition is transcribed from the repository source file named in its
doc comment, except the ones explicitly marked `Modelled from the spec:` or
modelled from an external dependency (the scaleway SDK / google uuid
library), whose semantics are stated in the comment.
-/

deriving instance DecidableEq for Except

namespace ScalewayCSI

/-- Go strings, as lists of characters (`strings.Split`, concatenation and
equality are the only operations the embedded code needs). -/
abbrev GoStr := List Char

/-- A Scaleway zone, as its string form (`scw.Zone` is a string type). -/
abbrev Zone := GoStr

/-- `MinVolumeSize` from `pkg/scaleway` (1 GB). -/
def MinVolumeSize : Int := 1000000000

/-- `MaxVolumesPerNode` from `pkg/scaleway` (16, including the root volume). -/
def MaxVolumesPerNode : Nat := 16

/-- gRPC status codes used by the driver. -/
inductive Code where
  | invalidArgument
  | outOfRange
  | alreadyExists
  | failedPrecondition
  | resourceExhausted
  | notFound
  | internal
  | aborted
deriving DecidableEq

/-- Errors produced by the Cloud Client (`pkg/scaleway/errors.go` sentinels,
`scw.ResourceNotFoundError`, `scw.PreconditionFailedError`, HTTP Gone, and a
catch-all for plain wrapped errors). -/
inductive ScwErr where
  | notFound
  | gone
  | preconditionFailed
  | volumeNotFound
  | snapshotNotFound
  | snapshotExists
  | volumeDifferentSize
  | other
deriving DecidableEq

/-- `codeFromScalewayError` from `pkg/driver` helpers: maps a Cloud Client
error to the gRPC code returned at the RPC edge. -/
def codeFromScalewayError : ScwErr → Code
  | .volumeDifferentSize => .alreadyExists
  | .snapshotExists => .alreadyExists
  | .notFound => .notFound
  | .gone => .notFound
  | .preconditionFailed => .failedPrecondition
  | _ => .internal

/-- `csi.CapacityRange`: `required_bytes` and `limit_bytes`, both `int64`. -/
structure CapacityRange where
  requiredBytes : Int
  limitBytes : Int
deriving DecidableEq

/-- `getVolumeRequestCapacity` from `pkg/driver` helpers: resolves the volume
capacity requested to the Scaleway block storage from a CSI capacity range.
A `nil` range is `none`; errors surface as `OutOfRange` at the RPC edge. -/
def getVolumeRequestCapacity (capacityRange : Option CapacityRange) : Except String Int :=
  match capacityRange with
  | none => .ok MinVolumeSize
  | some cr =>
    let requiredBytes := cr.requiredBytes
    let requiredBytesSet : Bool := requiredBytes > 0
    let limitBytes := cr.limitBytes
    let limitBytesSet : Bool := limitBytes > 0
    if ¬requiredBytesSet ∧ ¬limitBytesSet then
      .ok MinVolumeSize
    else if requiredBytesSet ∧ limitBytesSet ∧ limitBytes < requiredBytes then
      .error "limit size is less than required size"
    else if requiredBytesSet ∧ ¬limitBytesSet ∧ requiredBytes < MinVolumeSize then
      .error "required size is less than the minimum size"
    else if limitBytesSet ∧ limitBytes < MinVolumeSize then
      .error "limit size is less than the minimum size"
    else if requiredBytesSet ∧ limitBytesSet ∧ requiredBytes = limitBytes then
      .ok requiredBytes
    else if requiredBytesSet then
      .ok requiredBytes
    else if limitBytesSet then
      .ok limitBytes
    else
      .ok MinVolumeSize

/-- The capacity-resolution rules exactly as the claim states them, in the
claim's order; the third rule fires only when the limit alone is set
("only limit set and limit < MinVolumeSize is an error"). -/
def claimCapacityRules (capacityRange : Option CapacityRange) : Except String Int :=
  match capacityRange with
  | none => .ok MinVolumeSize
  | some cr =>
    let requiredSet : Bool := cr.requiredBytes > 0
    let limitSet : Bool := cr.limitBytes > 0
    if requiredSet ∧ limitSet ∧ cr.limitBytes < cr.requiredBytes then
      .error "limit size is less than required size"
    else if requiredSet ∧ ¬limitSet ∧ cr.requiredBytes < MinVolumeSize then
      .error "required size is less than the minimum size"
    else if ¬requiredSet ∧ limitSet ∧ cr.limitBytes < MinVolumeSize then
      .error "limit size is less than the minimum size"
    else if requiredSet ∧ limitSet ∧ cr.requiredBytes = cr.limitBytes then
      .ok cr.requiredBytes
    else if requiredSet then
      .ok cr.requiredBytes
    else if limitSet then
      .ok cr.limitBytes
    else
      .ok MinVolumeSize

/-- The capacity-resolution rules as amended: identical to the claim's rules
except that the third error rule fires whenever the limit is set below
`MinVolumeSize`, whether or not the required size is also set. -/
def amendedCapacityRules (capacityRange : Option CapacityRange) : Except String Int :=
  match capacityRange with
  | none => .ok MinVolumeSize
  | some cr =>
    let requiredSet : Bool := cr.requiredBytes > 0
    let limitSet : Bool := cr.limitBytes > 0
    if requiredSet ∧ limitSet ∧ cr.limitBytes < cr.requiredBytes then
      .error "limit size is less than required size"
    else if requiredSet ∧ ¬limitSet ∧ cr.requiredBytes < MinVolumeSize then
      .error "required size is less than the minimum size"
    else if limitSet ∧ cr.limitBytes < MinVolumeSize then
      .error "limit size is less than the minimum size"
    else if requiredSet ∧ limitSet ∧ cr.requiredBytes = cr.limitBytes then
      .ok cr.requiredBytes
    else if requiredSet then
      .ok cr.requiredBytes
    else if limitSet then
      .ok cr.limitBytes
    else
      .ok MinVolumeSize

/-- C3 counterexample: with `required = 500000000` and `limit = 600000000`
(both set, limit not below required, limit below `MinVolumeSize`), the code
rejects the range with "limit size is less than the minimum size", while the
claim's rules — whose third error case demands that only the limit be set —
fall through to "required set ⇒ return required" and yield `500000000`. -/
theorem C3_capacity_counterexample :
    getVolumeRequestCapacity (some ⟨500000000, 600000000⟩) =
      .error "limit size is less than the minimum size" ∧
    claimCapacityRules (some ⟨500000000, 600000000⟩) = .ok 500000000 ∧
    getVolumeRequestCapacity (some ⟨500000000, 600000000⟩) ≠
      claimCapacityRules (some ⟨500000000, 600000000⟩) := by
  refine ⟨by decide, by decide, by decide⟩

/-- C3 (amended): `getVolumeRequestCapacity` implements the claim's rules with
the third error rule widened to "limit set (whether or not required is set)
and limit < MinVolumeSize is an error": both-set-and-limit-below-required is
an error, required-only below `MinVolumeSize` is an error, limit set below
`MinVolumeSize` is an error, both set and equal returns that value, required
set returns required, limit set returns limit, neither set (or a `nil`
capacity range) returns `MinVolumeSize`. -/
theorem C3_capacity_resolution (capacityRange : Option CapacityRange) :
    getVolumeRequestCapacity capacityRange = amendedCapacityRules capacityRange := by
  match capacityRange with
  | none => rfl
  | some cr =>
    simp only [getVolumeRequestCapacity, amendedCapacityRules]
    by_cases hr : cr.requiredBytes > 0 <;>
      by_cases hl : cr.limitBytes > 0 <;>
        simp [hr, hl]

/-- The zones of the scaleway SDK (`scw.AllZones`), modelled from the SDK
dependency pinned by the repository. -/
def allZones : List Zone :=
  [ "fr-par-1".toList, "fr-par-2".toList, "fr-par-3".toList,
    "nl-ams-1".toList, "nl-ams-2".toList, "nl-ams-3".toList,
    "pl-waw-1".toList, "pl-waw-2".toList, "pl-waw-3".toList ]

/-- `scw.ParseZone`, modelled from the SDK dependency: the legacy aliases
`par1` and `ams1` map to `fr-par-1` and `nl-ams-1`, any member of
`scw.AllZones` parses to itself, and anything else is an error (`none`). -/
def parseZone (z : GoStr) : Option Zone :=
  if z = "par1".toList then some ("fr-par-1".toList)
  else if z = "ams1".toList then some ("nl-ams-1".toList)
  else if z ∈ allZones then some z
  else none

/-- Go's `strings.Split(s, "/")`: the list of substrings between the slashes
(always at least one element). -/
def splitSlash : GoStr → List GoStr
  | [] => [[]]
  | c :: cs =>
    if c = '/' then [] :: splitSlash cs
    else
      match splitSlash cs with
      | p :: ps => (c :: p) :: ps
      | [] => [[c]]

/-- `expandZonalID` from `pkg/driver` helpers: `fmt.Sprintf("%s/%s", zone, id)`. -/
def expandZonalID (id : GoStr) (zone : Zone) : GoStr :=
  zone ++ '/' :: id

/-- `ExtractIDAndZone` from `pkg/driver` helpers: split a zonal ID on `/`;
empty IDs and IDs with more than one slash are invalid-argument errors; a
bare ID gets the empty (default) zone; an unrecognized zone in a two-part ID
is warned about and replaced by the empty (default) zone. -/
def ExtractIDAndZone (id : GoStr) : Except Code (GoStr × Zone) :=
  if id = [] then .error .invalidArgument
  else
    match splitSlash id with
    | [single] => .ok (single, [])
    | [z, rest] =>
      match parseZone z with
      | none => .ok (rest, [])
      | some zone => .ok (rest, zone)
    | _ => .error .invalidArgument

/-- `strconv.Itoa` on a natural number, as the list of decimal digit
characters (fuel-based so that it computes in the kernel; `n + 1` units of
fuel always suffice). -/
def natReprAux : Nat → Nat → GoStr
  | 0, _ => []
  | fuel + 1, n =>
    if n < 10 then [Nat.digitChar n]
    else natReprAux fuel (n / 10) ++ [Nat.digitChar (n % 10)]

/-- `strconv.Itoa` on a natural number. -/
def natRepr (n : Nat) : GoStr := natReprAux (n + 1) n

/-- Digit accumulator of `strconv.ParseUint(s, 10, 0)`. -/
def parseDigits : Nat → GoStr → Option Nat
  | acc, [] => some acc
  | acc, c :: cs =>
    if c.isDigit then parseDigits (acc * 10 + (c.toNat - '0'.toNat)) cs else none

/-- `strconv.ParseUint(s, 10, 0)`, modelled from the Go standard library:
the empty string and any string with a non-digit character are errors
(`none`). The 64-bit overflow error is outside the model. -/
def parseUint (s : GoStr) : Option Nat :=
  if s = [] then none else parseDigits 0 s

/-- `parseStartingToken` from `pkg/driver` helpers: the empty token is
offset 0; otherwise the token must parse as a base-10 unsigned integer,
which the source then truncates through `uint32`. -/
def parseStartingToken (token : GoStr) : Except String Nat :=
  if token = [] then .ok 0
  else
    match parseUint token with
    | none => .error "failed to parse token into a number"
    | some n => .ok (n % 2 ^ 32)

/-- `maxPageSize` from `pkg/scaleway/errors.go`. -/
def maxPageSize : Nat := 50

/-- The page size `paginatedList` uses: `max` when `0 < max < 50`, else 50. -/
def listPageSizeOf (mx : Nat) : Nat :=
  if mx < maxPageSize ∧ mx ≠ 0 then mx else maxPageSize

/-- The loop of `paginatedList` from `pkg/scaleway/errors.go`, specialized to
a query backed by a list `L` (page `p` of size `ps` is
`L[(p-1)*ps : p*ps]`, which is how the Block API pages a fixed listing).
`fuel` is a bound on the number of iterations; `L.length + 1` always
suffices. The token is written through Go `uint32` arithmetic, hence the
`% 2 ^ 32`. -/
def paginatedListLoop (L : List α) (start mx ps : Nat) :
    Nat → Nat → List α → Nat → List α × GoStr
  | 0, _, elements, _ => (elements, [])
  | fuel + 1, page, elements, first =>
    let resp := (L.drop ((page - 1) * ps)).take ps
    let respCount := resp.length
    if first ≥ respCount then (elements, [])
    else if mx = 0 then
      let elements2 := elements ++ resp.drop first
      if respCount ≠ ps then (elements2, [])
      else paginatedListLoop L start mx ps fuel (page + 1) elements2 0
    else
      let elements2 :=
        elements ++ (resp.drop first).take (min respCount (first + mx - elements.length) - first)
      if elements2.length ≥ mx then
        (elements2, if respCount = ps then natRepr ((start + mx) % 2 ^ 32) else [])
      else if respCount ≠ ps then (elements2, [])
      else paginatedListLoop L start mx ps fuel (page + 1) elements2 0

/-- `paginatedList` from `pkg/scaleway/errors.go` over a backing list `L`:
`start` is the absolute offset, `mx` the maximum number of elements
(0 = unlimited); returns the elements and the opaque next token. -/
def paginatedList (L : List α) (start mx : Nat) : List α × GoStr :=
  let ps := listPageSizeOf mx
  paginatedListLoop L start mx ps (L.length + 1) (start / ps + 1) [] (start % ps)

/-- A caller that repeatedly calls `paginatedList`, passing the returned
token back (through `parseStartingToken`, as `ListVolumes` does) until the
token is empty; `none` when `fuel` runs out or a token fails to parse. -/
def paginatedChain (L : List α) (mx : Nat) : Nat → Nat → Option (List α)
  | 0, _ => none
  | fuel + 1, start =>
    if (paginatedList L start mx).2 = [] then some (paginatedList L start mx).1
    else
      match parseStartingToken (paginatedList L start mx).2 with
      | .error _ => none
      | .ok next =>
        (paginatedChain L mx fuel next).map ((paginatedList L start mx).1 ++ ·)

/-- The fetched page (of size `ps`) containing the last element of the
returned slice `[start, start+mx)` is full, i.e. entirely within the
backing list. -/
def lastPageFull (len start mx ps : Nat) : Prop :=
  (start + mx - 1) / ps * ps + ps ≤ len

instance (len start mx ps : Nat) : Decidable (lastPageFull len start mx ps) := by
  unfold lastPageFull
  infer_instance

theorem digitChar_isDigit (d : Nat) (h : d < 10) : (Nat.digitChar d).isDigit = true := by
  interval_cases d <;> decide

theorem digitChar_toNat (d : Nat) (h : d < 10) :
    (Nat.digitChar d).toNat - '0'.toNat = d := by
  interval_cases d <;> decide

theorem parseDigits_append (acc : Nat) (xs ys : GoStr) :
    parseDigits acc (xs ++ ys) =
      match parseDigits acc xs with
      | some a => parseDigits a ys
      | none => none := by
  induction xs generalizing acc with
  | nil => rfl
  | cons c cs ih =>
    simp only [List.cons_append, parseDigits]
    by_cases hc : c.isDigit
    · simp [hc, ih]
    · simp [hc]

theorem parseDigits_natReprAux :
    ∀ fuel n acc, n < fuel →
      parseDigits acc (natReprAux fuel n) =
        some (acc * 10 ^ (natReprAux fuel n).length + n) := by
  intro fuel
  induction fuel with
  | zero => intro n acc h; omega
  | succ fuel ih =>
    intro n acc h
    by_cases h10 : n < 10
    · simp only [natReprAux, if_pos h10, parseDigits, digitChar_isDigit n h10, if_true,
        digitChar_toNat n h10, List.length_cons, List.length_nil]
      norm_num
    · have hlt : n / 10 < fuel := by omega
      simp only [natReprAux, if_neg h10]
      rw [parseDigits_append, ih (n / 10) acc hlt]
      have hmod : n % 10 < 10 := Nat.mod_lt n (by norm_num)
      simp only [parseDigits, digitChar_isDigit _ hmod, if_true, digitChar_toNat _ hmod,
        List.length_append, List.length_cons, List.length_nil]
      congr 1
      rw [pow_succ, ← mul_assoc]
      have hdm : n / 10 * 10 + n % 10 = n := by omega
      generalize acc * 10 ^ (natReprAux fuel (n / 10)).length = A
      omega

theorem natReprAux_ne_nil (fuel n : Nat) (h : n < fuel) : natReprAux fuel n ≠ [] := by
  cases fuel with
  | zero => omega
  | succ fuel =>
    simp only [natReprAux]
    by_cases h10 : n < 10
    · simp [h10]
    · simp [h10]

theorem natRepr_ne_nil (n : Nat) : natRepr n ≠ [] :=
  natReprAux_ne_nil (n + 1) n (by omega)

theorem parseUint_natRepr (n : Nat) : parseUint (natRepr n) = some n := by
  rw [parseUint, if_neg (natRepr_ne_nil n)]
  have h := parseDigits_natReprAux (n + 1) n 0 (by omega)
  rw [natRepr, h, Nat.zero_mul, Nat.zero_add]

theorem parseStartingToken_natRepr (n : Nat) :
    parseStartingToken (natRepr n) = .ok (n % 2 ^ 32) := by
  rw [parseStartingToken, if_neg (natRepr_ne_nil n), parseUint_natRepr]

theorem add_mul_div_of_lt {b ps : Nat} (a : Nat) (hps : 0 < ps) (hb : b < ps) :
    (a * ps + b) / ps = a := by
  rw [Nat.add_comm, Nat.add_mul_div_right _ _ hps, Nat.div_eq_of_lt hb, Nat.zero_add]

theorem mul_sub_one_div {t ps : Nat} (hps : 0 < ps) (ht : 0 < t) :
    (t * ps - 1) / ps = t - 1 := by
  have h : t * ps - 1 = (ps - 1) + (t - 1) * ps := by
    have h2 : t * ps = (t - 1) * ps + ps := by
      cases t with
      | zero => omega
      | succ k => simp [Nat.succ_mul]
    omega
  rw [h, Nat.add_mul_div_right _ _ hps, Nat.div_eq_of_lt (by omega), Nat.zero_add]

theorem respDrop_eq (L : List α) (off first ps : Nat) :
    ((L.drop off).take ps).drop first = (L.drop (off + first)).take (ps - first) := by
  rw [List.drop_take, List.drop_drop]

theorem drop_off_split (L : List α) (off first ps : Nat) (hfirst : first ≤ ps) :
    L.drop (off + ps) = (L.drop (off + first)).drop (ps - first) := by
  rw [List.drop_drop]
  congr 1
  omega

theorem paginatedListLoop_zero (L : List α) (start ps : Nat) (hps : 0 < ps) :
    ∀ fuel q elements first, first < ps →
      L.length + 1 ≤ fuel + q * ps →
      paginatedListLoop L start 0 ps fuel (q + 1) elements first =
        (elements ++ L.drop (q * ps + first), []) := by
  intro fuel
  induction fuel with
  | zero =>
    intro q elements first hfirst hfuel
    have hdrop : L.drop (q * ps + first) = [] := List.drop_eq_nil_of_le (by omega)
    simp [paginatedListLoop, hdrop]
  | succ fuel ih =>
    intro q elements first hfirst hfuel
    have hrc : ((L.drop (q * ps)).take ps).length = min ps (L.length - q * ps) := by
      simp [List.length_take, List.length_drop]
    simp only [paginatedListLoop, Nat.add_sub_cancel]
    split
    next h1 =>
      have hdrop : L.drop (q * ps + first) = [] := by
        refine List.drop_eq_nil_of_le ?_
        rw [hrc] at h1
        omega
      rw [hdrop, List.append_nil]
    next h1 =>
      split
      next =>
        split
        next h2 =>
          rw [hrc] at h1 h2
          rw [respDrop_eq]
          have hle : (L.drop (q * ps + first)).length ≤ ps - first := by
            rw [List.length_drop]
            omega
          rw [List.take_of_length_le hle]
        next h2 =>
          push_neg at h2
          rw [hrc] at h1 h2
          rw [ih (q + 1) _ 0 hps (by
            have hsm : (q + 1) * ps = q * ps + ps := Nat.succ_mul q ps
            omega)]
          have hfull : ps ≤ L.length - q * ps := by omega
          rw [Nat.add_zero, Nat.succ_mul, respDrop_eq, List.append_assoc]
          rw [drop_off_split L (q * ps) first ps (by omega), List.take_append_drop]
      next h0 => exact absurd trivial h0

theorem paginatedListLoop_pos (L : List α) (start mx ps : Nat) (hps : 0 < ps) (hmx : 0 < mx) :
    ∀ fuel q elements first, first < ps → elements.length < mx →
      L.length + 1 ≤ fuel + q * ps →
      paginatedListLoop L start mx ps fuel (q + 1) elements first =
        (elements ++ (L.drop (q * ps + first)).take (mx - elements.length),
         if (q * ps + first + (mx - elements.length) - 1) / ps * ps + ps ≤ L.length
         then natRepr ((start + mx) % 2 ^ 32) else []) := by
  intro fuel
  induction fuel with
  | zero =>
    intro q elements first hfirst hel hfuel
    have hdrop : L.drop (q * ps + first) = [] := List.drop_eq_nil_of_le (by omega)
    have hd := Nat.lt_div_mul_add (a := q * ps + first + (mx - elements.length) - 1) hps
    have hcond :
        ¬ ((q * ps + first + (mx - elements.length) - 1) / ps * ps + ps ≤ L.length) := by
      omega
    simp [paginatedListLoop, hdrop, hcond]
  | succ fuel ih =>
    intro q elements first hfirst hel hfuel
    have hrc : ((L.drop (q * ps)).take ps).length = min ps (L.length - q * ps) := by
      simp [List.length_take, List.length_drop]
    have hDlen : (L.drop (q * ps + first)).length = L.length - (q * ps + first) :=
      List.length_drop ..
    simp only [paginatedListLoop, Nat.add_sub_cancel]
    split
    next h1 =>
      rw [hrc] at h1
      have hdrop : L.drop (q * ps + first) = [] := List.drop_eq_nil_of_le (by omega)
      have hd := Nat.lt_div_mul_add (a := q * ps + first + (mx - elements.length) - 1) hps
      rw [hdrop, if_neg (by omega :
        ¬ ((q * ps + first + (mx - elements.length) - 1) / ps * ps + ps ≤ L.length))]
      simp
    next h1 =>
      push_neg at h1
      rw [hrc] at h1
      split
      next h0 => omega
      next h0 =>
        rw [respDrop_eq L (q * ps) first ps, List.take_take, hrc]
        split
        next h2 =>
          rw [List.length_append, List.length_take, hDlen] at h2
          have hfn : first + (mx - elements.length) ≤ ps := by omega
          have hkn :
              min (min ps (L.length - q * ps) ⊓ (first + mx - elements.length) - first)
                (ps - first) = mx - elements.length := by
            omega
          rw [hkn]
          simp only [Prod.mk.injEq]
          refine ⟨trivial, if_congr ?_ rfl rfl⟩
          rw [show q * ps + first + (mx - elements.length) - 1
                = q * ps + (first + (mx - elements.length) - 1) from by omega,
            add_mul_div_of_lt q hps (by omega)]
          omega
        next h2 =>
          rw [List.length_append, List.length_take, hDlen] at h2
          push_neg at h2
          split
          next h3 =>
            have hlD : L.length - q * ps < ps := by omega
            have hmin :
                min (min ps (L.length - q * ps) ⊓ (first + mx - elements.length) - first)
                  (ps - first) = (L.drop (q * ps + first)).length := by
              rw [hDlen]; omega
            rw [hmin, List.take_length,
              List.take_of_length_le (by rw [hDlen]; omega)]
            have hd := Nat.lt_div_mul_add (a := q * ps + first + (mx - elements.length) - 1) hps
            rw [if_neg (by rw [hDlen] at hmin; omega :
              ¬ ((q * ps + first + (mx - elements.length) - 1) / ps * ps + ps ≤ L.length))]
          next h3 =>
            push_neg at h3
            have hple : ps ≤ L.length - q * ps := by omega
            have hKval :
                min (min ps (L.length - q * ps) ⊓ (first + mx - elements.length) - first)
                  (ps - first) = ps - first := by omega
            have hpsn : ps - first < mx - elements.length := by omega
            rw [hKval]
            have hsm : (q + 1) * ps = q * ps + ps := Nat.succ_mul q ps
            have hlen2 :
                (elements ++ (L.drop (q * ps + first)).take (ps - first)).length
                  = elements.length + (ps - first) := by
              rw [List.length_append, List.length_take, hDlen]
              omega
            rw [ih (q + 1) (elements ++ (L.drop (q * ps + first)).take (ps - first)) 0 hps
              (by rw [hlen2]; omega) (by omega)]
            simp only [Prod.mk.injEq]
            constructor
            · rw [List.append_assoc, hlen2, Nat.add_zero, hsm,
                drop_off_split L (q * ps) first ps (by omega)]
              have hsplitD :
                  (L.drop (q * ps + first)).take (mx - elements.length)
                    = (L.drop (q * ps + first)).take (ps - first)
                      ++ ((L.drop (q * ps + first)).drop (ps - first)).take
                          (mx - (elements.length + (ps - first))) := by
                rw [← List.take_add]
                congr 1
                omega
              rw [hsplitD]
            · refine if_congr ?_ rfl rfl
              rw [hlen2, Nat.add_zero, hsm,
                show q * ps + ps + (mx - (elements.length + (ps - first))) - 1
                  = q * ps + first + (mx - elements.length) - 1 from by omega]

theorem listPageSizeOf_pos (mx : Nat) : 0 < listPageSizeOf mx := by
  unfold listPageSizeOf maxPageSize
  split <;> omega

theorem div_mul_add_mod (s ps : Nat) : s / ps * ps + s % ps = s := by
  rw [Nat.mul_comm]
  exact Nat.div_add_mod s ps

/-- One call to `paginatedList` over `L`, in closed form: the elements are
the requested slice (the tail when `mx = 0`), and the token is the decimal
offset `start + mx` (through `uint32`) exactly when `mx > 0` and the last
fetched page was full. -/
theorem paginatedList_eq (L : List α) (s mx : Nat) :
    paginatedList L s mx =
      (if mx = 0 then L.drop s else (L.drop s).take mx,
       if 0 < mx ∧ lastPageFull L.length s mx (listPageSizeOf mx)
       then natRepr ((s + mx) % 2 ^ 32) else []) := by
  have hps : 0 < listPageSizeOf mx := listPageSizeOf_pos mx
  by_cases h0 : mx = 0
  · subst h0
    rw [paginatedList,
      paginatedListLoop_zero L s (listPageSizeOf 0) hps (L.length + 1) (s / listPageSizeOf 0)
        [] (s % listPageSizeOf 0) (Nat.mod_lt _ hps) (by omega),
      div_mul_add_mod]
    simp
  · have hmx : 0 < mx := by omega
    rw [paginatedList,
      paginatedListLoop_pos L s mx (listPageSizeOf mx) hps hmx (L.length + 1)
        (s / listPageSizeOf mx) [] (s % listPageSizeOf mx) (Nat.mod_lt _ hps)
        (by simpa using hmx) (by omega),
      div_mul_add_mod]
    simp only [List.nil_append, List.length_nil, Nat.sub_zero]
    rw [if_neg h0]
    simp only [Prod.mk.injEq]
    exact ⟨trivial, if_congr ⟨fun h => ⟨hmx, h⟩, fun h => h.2⟩ rfl rfl⟩

theorem lastPageFull_aligned (len mx s ps : Nat) (hps : 0 < ps) (hmx : 0 < mx)
    (hdvds : ps ∣ s) (hdvdmx : ps ∣ mx) :
    lastPageFull len s mx ps ↔ s + mx ≤ len := by
  obtain ⟨a, ha⟩ := hdvds
  obtain ⟨b, hb⟩ := hdvdmx
  have hb1 : 1 ≤ b := by
    rcases Nat.eq_zero_or_pos b with h | h
    · rw [h, Nat.mul_zero] at hb; omega
    · omega
  unfold lastPageFull
  rw [ha, hb, show ps * a + ps * b = (a + b) * ps from by ring]
  obtain ⟨c, hc⟩ : ∃ c, a + b = c + 1 := ⟨a + b - 1, by omega⟩
  rw [hc, mul_sub_one_div hps (by omega)]
  simp [Nat.succ_mul]

theorem paginatedChain_aligned (L : List α) (mx : Nat) (hmx : 0 < mx)
    (hdvdmx : listPageSizeOf mx ∣ mx) (hlen : L.length < 2 ^ 32) :
    ∀ fuel s, listPageSizeOf mx ∣ s → s ≤ L.length → L.length + 1 ≤ fuel + s →
      paginatedChain L mx fuel s = some (L.drop s) := by
  intro fuel
  induction fuel with
  | zero => intro s _ hsle hf; omega
  | succ fuel ih =>
    intro s hdvds hsle hf
    have hiff := lastPageFull_aligned L.length mx s (listPageSizeOf mx)
      (listPageSizeOf_pos mx) hmx hdvds hdvdmx
    simp only [paginatedChain, paginatedList_eq]
    by_cases hle : s + mx ≤ L.length
    · have hcond : 0 < mx ∧ lastPageFull L.length s mx (listPageSizeOf mx) :=
        ⟨hmx, hiff.mpr hle⟩
      have hmod : (s + mx) % 2 ^ 32 = s + mx := Nat.mod_eq_of_lt (by omega)
      rw [if_pos hcond, hmod, if_neg (natRepr_ne_nil (s + mx)),
        parseStartingToken_natRepr (s + mx), hmod]
      have hdd : L.drop (s + mx) = (L.drop s).drop mx := by
        rw [List.drop_drop]
      simp only [ih (s + mx) (Dvd.dvd.add hdvds hdvdmx) hle (by omega), hdd,
        Option.map_some', if_neg (by omega : ¬ mx = 0)]
      rw [List.take_append_drop]
    · have hcond : ¬ (0 < mx ∧ lastPageFull L.length s mx (listPageSizeOf mx)) :=
        fun h => hle (hiff.mp h.2)
      rw [if_neg hcond, if_pos rfl, if_neg (by omega : ¬ mx = 0),
        List.take_of_length_le (by rw [List.length_drop]; omega)]

/-- C2 counterexample: over the backing list `0..9` with `start = 5` and
`max = 4` (so `start + max = 9 ≤ 10`), a single call returns `[5, 6, 7, 8]`
with an empty token — the last fetched page `[8, 9]` is partial, so no token
is emitted even though element `9` was never returned. The chain of calls
that follows tokens therefore stops after one call and recovers
`[5, 6, 7, 8]`, not `L[5:] = [5, 6, 7, 8, 9]`, refuting the claim's
concatenation property as stated. -/
theorem C2_pagination_counterexample :
    5 + 4 ≤ (List.range 10).length ∧
    paginatedList (List.range 10) 5 4 = ([5, 6, 7, 8], []) ∧
    paginatedChain (List.range 10) 4 ((List.range 10).length + 1) 5 = some [5, 6, 7, 8] ∧
    ([5, 6, 7, 8] : List Nat) ≠ (List.range 10).drop 5 :=
  ⟨by decide, by decide, by decide, by decide⟩

/-- C2 (amended): for every backing list `L` and offsets `(start, mx)`, one
call to `paginatedList` returns exactly the slice `L[start : start+mx]`
(the tail `L[start:]` when `mx = 0`, and a `take` past the end is the tail);
when `L.length < 2^32` the returned token is the decimal string of
`start + mx` exactly when `mx > 0`, `mx` elements were accumulated, and the
last fetched page was full, and the token is empty otherwise; and the chain
of successive calls that pass the returned token back recovers `L[start:]`
and ends with an empty token, provided — this is the amendment the
counterexample forces — `mx = 0` or the page size divides both `start` and
`mx` (so that no partial final page can swallow the token while elements
remain). -/
theorem C2_pagination (L : List α) (s mx : Nat) :
    (paginatedList L s mx).1 = (if mx = 0 then L.drop s else (L.drop s).take mx) ∧
    (L.length < 2 ^ 32 →
      (((paginatedList L s mx).2 = natRepr (s + mx)) ↔
        (0 < mx ∧ (paginatedList L s mx).1.length = mx ∧
          lastPageFull L.length s mx (listPageSizeOf mx))) ∧
      ((paginatedList L s mx).2 = natRepr (s + mx) ∨ (paginatedList L s mx).2 = [])) ∧
    ((mx = 0 ∨ (listPageSizeOf mx ∣ s ∧ listPageSizeOf mx ∣ mx)) → s + mx ≤ L.length →
      L.length < 2 ^ 32 →
      paginatedChain L mx (L.length + 1) s = some (L.drop s)) := by
  have hps : 0 < listPageSizeOf mx := listPageSizeOf_pos mx
  refine ⟨by rw [paginatedList_eq], ?_, ?_⟩
  · intro hlen
    constructor
    · simp only [paginatedList_eq]
      by_cases hcond : 0 < mx ∧ lastPageFull L.length s mx (listPageSizeOf mx)
      · rw [if_pos hcond]
        have hd := Nat.lt_div_mul_add (a := s + mx - 1) hps
        have hsmx : s + mx ≤ L.length := by
          have h2 := hcond.2
          unfold lastPageFull at h2
          omega
        have hmod : (s + mx) % 2 ^ 32 = s + mx := Nat.mod_eq_of_lt (by omega)
        rw [hmod]
        refine iff_of_true rfl ⟨hcond.1, ?_, hcond.2⟩
        rw [if_neg (by omega : ¬ mx = 0), List.length_take, List.length_drop]
        omega
      · rw [if_neg hcond]
        refine iff_of_false (fun h => natRepr_ne_nil (s + mx) h.symm) ?_
        rintro ⟨h1, _, h3⟩
        exact hcond ⟨h1, h3⟩
    · simp only [paginatedList_eq]
      by_cases hcond : 0 < mx ∧ lastPageFull L.length s mx (listPageSizeOf mx)
      · rw [if_pos hcond]
        have hd := Nat.lt_div_mul_add (a := s + mx - 1) hps
        have hsmx : s + mx ≤ L.length := by
          have h2 := hcond.2
          unfold lastPageFull at h2
          omega
        rw [Nat.mod_eq_of_lt (by omega : s + mx < 2 ^ 32)]
        exact Or.inl rfl
      · rw [if_neg hcond]
        exact Or.inr rfl
  · intro hcase hle hlen
    by_cases h0 : mx = 0
    · subst h0
      simp only [paginatedChain, paginatedList_eq]
      rw [if_neg (by simp : ¬ (0 < 0 ∧ lastPageFull L.length s 0 (listPageSizeOf 0))),
        if_pos rfl]
      simp
    · have hmx : 0 < mx := by omega
      rcases hcase with h | ⟨hds, hdm⟩
      · omega
      · exact paginatedChain_aligned L mx hmx hdm hlen (L.length + 1) s hds (by omega)
          (by omega)

/-- C2 witness: the slice form, the emitted token, and the aligned chain at
concrete inputs (`L = 0..11`), with every hypothesis discharged by
evaluation. -/
theorem C2_pagination_witness :
    (paginatedList (List.range 12) 3 4).1 = ((List.range 12).drop 3).take 4 ∧
    (paginatedList (List.range 12) 3 4).2 = natRepr 7 ∧
    paginatedChain (List.range 12) 5 ((List.range 12).length + 1) 5 =
      some ((List.range 12).drop 5) := by
  refine ⟨?_, ?_, ?_⟩
  · have h := (C2_pagination (List.range 12) 3 4).1
    simpa using h
  · have h := ((C2_pagination (List.range 12) 3 4).2.1 (by decide)).1.mpr
      ⟨by decide, by decide, by decide⟩
    exact h
  · exact (C2_pagination (List.range 12) 5 5).2.2 (Or.inr ⟨by decide, by decide⟩)
      (by decide) (by decide)

/-- `block.VolumeStatus`. -/
inductive VolumeStatus where
  | creating
  | available
  | inUse
  | error
  | deleting
deriving DecidableEq

/-- `block.Reference`: a reference between a volume and a consuming product. -/
structure Reference where
  refId : GoStr
  productResourceType : GoStr
  productResourceID : GoStr
deriving DecidableEq

/-- `block.Volume`, restricted to the fields the driver reads. The `PerfIops`
specs and timestamps are not read by any embedded operation. -/
structure BlockVolume where
  id : GoStr
  name : GoStr
  size : Nat
  zone : Zone
  status : VolumeStatus
  parentSnapshotID : Option GoStr
  references : List Reference
deriving DecidableEq

/-- `block.SnapshotStatus`. -/
inductive SnapshotStatus where
  | snapshotting
  | available
  | inUse
  | error
deriving DecidableEq

/-- `block.SnapshotParentVolume`. -/
structure SnapshotParentVolume where
  id : GoStr
  name : GoStr
deriving DecidableEq

/-- `block.Snapshot`, restricted to the fields the driver reads. -/
structure BlockSnapshot where
  id : GoStr
  name : GoStr
  size : Nat
  zone : Zone
  status : SnapshotStatus
  parentVolume : Option SnapshotParentVolume
deriving DecidableEq

/-- One slot of `instance.Server.Volumes` (slot key and attached volume id). -/
structure VolumeServerEntry where
  slot : GoStr
  volumeId : GoStr
deriving DecidableEq

/-- `instance.Server`, restricted to the fields the driver reads. -/
structure InstanceServer where
  id : GoStr
  zone : Zone
  volumes : List VolumeServerEntry
deriving DecidableEq

/-- `InstanceServerProductResourceType` from `pkg/scaleway/block.go`. -/
def InstanceServerProductResourceType : GoStr := "instance_server".toList

/-- The state of the in-memory Fake Scaleway client: its volume, snapshot and
server maps (modelled as lists keyed by `id`, iterated in list order), the
default zone, and a counter supplying fresh ids (`uuid.NewString()`). -/
structure FakeState where
  snapshots : List BlockSnapshot
  volumes : List BlockVolume
  servers : List InstanceServer
  defaultZone : Zone
  nextID : Nat
deriving DecidableEq

/-- Zone defaulting done by every Fake operation: the empty zone means the
client's default zone. -/
def zoneOrDefault (st : FakeState) (zone : Zone) : Zone :=
  if zone = [] then st.defaultZone else zone

/-- `Fake.GetVolumeByName`: the first volume whose name and zone match; a
match with a different size is `ErrVolumeDifferentSize`; otherwise
`ErrVolumeNotFound`. -/
def fakeGetVolumeByName (st : FakeState) (name : GoStr) (size : Nat) (zone : Zone) :
    Except ScwErr BlockVolume :=
  let zone := zoneOrDefault st zone
  match st.volumes.find? (fun v => decide (v.name = name ∧ v.zone = zone)) with
  | some v => if v.size ≠ size then .error .volumeDifferentSize else .ok v
  | none => .error .volumeNotFound

/-- `Fake.GetVolume`: lookup by id, a zone mismatch is not-found. -/
def fakeGetVolume (st : FakeState) (volumeID : GoStr) (zone : Zone) :
    Except ScwErr BlockVolume :=
  let zone := zoneOrDefault st zone
  match st.volumes.find? (fun v => decide (v.id = volumeID)) with
  | some v => if v.zone = zone then .ok v else .error .notFound
  | none => .error .notFound

/-- `Fake.GetServer`: lookup by id, a zone mismatch is not-found. -/
def fakeGetServer (st : FakeState) (serverID : GoStr) (zone : Zone) :
    Except ScwErr InstanceServer :=
  let zone := zoneOrDefault st zone
  match st.servers.find? (fun s => decide (s.id = serverID)) with
  | some s => if s.zone = zone then .ok s else .error .notFound
  | none => .error .notFound

/-- `Fake.CreateVolume` with no snapshot source builds an `available` volume
of the requested size; with a snapshot source the volume takes the
snapshot's size. `NewSize` rejects negative sizes. The fresh uuid is drawn
from `nextID`. -/
def fakeCreateVolume (st : FakeState) (name snapshotID : GoStr) (size : Int)
    (zone : Zone) : Except ScwErr BlockVolume × FakeState :=
  let zone := zoneOrDefault st zone
  if size < 0 then (.error .other, st)
  else
    let newVolume : BlockVolume :=
      { id := natRepr st.nextID, name := name, size := size.toNat, zone := zone,
        status := .available, parentSnapshotID := none, references := [] }
    if snapshotID ≠ [] then
      match st.snapshots.find? (fun s => decide (s.id = snapshotID)) with
      | some s =>
        if s.zone = zone then
          let v := { newVolume with parentSnapshotID := some snapshotID, size := s.size }
          (.ok v, { st with volumes := st.volumes ++ [v], nextID := st.nextID + 1 })
        else (.error .notFound, st)
      | none => (.error .notFound, st)
    else
      (.ok newVolume, { st with volumes := st.volumes ++ [newVolume], nextID := st.nextID + 1 })

/-- The slot-allocation loop of `Fake.AttachVolume`: the first key in
`0 .. len(volumes)` that is not yet used. -/
def firstFreeSlot (vols : List VolumeServerEntry) : Option Nat :=
  (List.range (vols.length + 1)).find? (fun i => vols.all (fun e => decide (e.slot ≠ natRepr i)))

/-- `Fake.AttachVolume`: checks server and volume (zone-scoped), rejects a
full server (`MaxVolumesPerNode` slots) and a non-`available` volume, then
adds an `instance_server` reference, marks the volume `in_use` and fills the
first free slot. -/
def fakeAttachVolume (st : FakeState) (serverID volumeID : GoStr) (zone : Zone) :
    Except ScwErr Unit × FakeState :=
  let zone := zoneOrDefault st zone
  match st.servers.find? (fun s => decide (s.id = serverID)) with
  | none => (.error .notFound, st)
  | some s =>
    if s.zone ≠ zone then (.error .notFound, st)
    else
      match st.volumes.find? (fun v => decide (v.id = volumeID)) with
      | none => (.error .notFound, st)
      | some v =>
        if v.zone ≠ zone then (.error .notFound, st)
        else if s.volumes.length = MaxVolumesPerNode then (.error .other, st)
        else if v.status ≠ .available then (.error .other, st)
        else
          let ref : Reference :=
            { refId := natRepr st.nextID,
              productResourceType := InstanceServerProductResourceType,
              productResourceID := serverID }
          let v2 := { v with references := v.references ++ [ref], status := .inUse }
          let slot := match firstFreeSlot s.volumes with
            | some i => natRepr i
            | none => []
          let s2 := { s with volumes := s.volumes ++ [{ slot := slot, volumeId := volumeID }] }
          (.ok (),
           { st with
             volumes := st.volumes.map (fun w => if w.id = v.id then v2 else w),
             servers := st.servers.map (fun w => if w.id = s.id then s2 else w),
             nextID := st.nextID + 1 })

/-- The deletion of one slot entry by volume id (`delete(s.Volumes, k)` for
the first matching slot). -/
def removeVolumeEntry : List VolumeServerEntry → GoStr → List VolumeServerEntry
  | [], _ => []
  | e :: es, vid => if e.volumeId = vid then es else e :: removeVolumeEntry es vid

/-- `Fake.DetachVolume`: requires the volume `in_use` with a reference,
removes the slot from the referenced server, clears the references and marks
the volume `available`. -/
def fakeDetachVolume (st : FakeState) (volumeID : GoStr) (zone : Zone) :
    Except ScwErr Unit × FakeState :=
  let zone := zoneOrDefault st zone
  match st.volumes.find? (fun v => decide (v.id = volumeID)) with
  | none => (.error .notFound, st)
  | some v =>
    if v.zone ≠ zone then (.error .notFound, st)
    else if v.status ≠ .inUse ∨ v.references = [] then (.error .other, st)
    else
      match v.references with
      | [] => (.error .other, st)
      | r :: _ =>
        match st.servers.find? (fun s => decide (s.id = r.productResourceID)) with
        | none => (.error .notFound, st)
        | some s =>
          if s.zone ≠ zone then (.error .notFound, st)
          else
            let s2 := { s with volumes := removeVolumeEntry s.volumes volumeID }
            let v2 := { v with references := [], status := .available }
            (.ok (),
             { st with
               volumes := st.volumes.map (fun w => if w.id = v.id then v2 else w),
               servers := st.servers.map (fun w => if w.id = s.id then s2 else w) })

/-- `Fake.ResizeVolume`: `NewSize` rejects negative sizes, shrinking is an
error, otherwise the volume's size is updated in place. -/
def fakeResizeVolume (st : FakeState) (volumeID : GoStr) (zone : Zone) (size : Int) :
    Except ScwErr Unit × FakeState :=
  let zone := zoneOrDefault st zone
  if size < 0 then (.error .other, st)
  else
    match st.volumes.find? (fun v => decide (v.id = volumeID)) with
    | some v =>
      if v.zone = zone then
        if size.toNat < v.size then (.error .other, st)
        else
          let updated :=
            st.volumes.map (fun w => if w.id = volumeID then { w with size := size.toNat } else w)
          (.ok (), { st with volumes := updated })
      else (.error .notFound, st)
    | none => (.error .notFound, st)

/-- `DriverName` from `pkg/driver/driver.go`. -/
def DriverName : GoStr := "csi.scaleway.com".toList

/-- `ZoneTopologyKey` from `pkg/driver/driver.go`:
`"topology." + DriverName + "/zone"`. -/
def ZoneTopologyKey : GoStr := "topology.".toList ++ DriverName ++ "/zone".toList

/-- Publish-context keys from the controller source. -/
def scwVolumeIDKey : GoStr := DriverName ++ "/volume-id".toList

def scwVolumeNameKey : GoStr := DriverName ++ "/volume-name".toList

def scwVolumeZoneKey : GoStr := DriverName ++ "/volume-zone".toList

/-- `csi.VolumeCapability_AccessMode_Mode`. -/
inductive AccessMode where
  | unspecified
  | singleNodeWriter
  | singleNodeReaderOnly
  | multiNodeReaderOnly
  | multiNodeSingleWriter
  | multiNodeMultiWriter
  | singleNodeSingleWriter
  | singleNodeMultiWriter
deriving DecidableEq

/-- The access type of a capability (`Block` or `Mount` in the proto oneof;
`none` models an absent access type). -/
inductive AccessTypeKind where
  | block
  | mount
deriving DecidableEq

/-- `csi.VolumeCapability`. A `nil` capability pointer behaves as
`{ unspecified, none }` through the proto getters. -/
structure VolumeCapability where
  accessMode : AccessMode
  accessType : Option AccessTypeKind
deriving DecidableEq

/-- The proto getters of a `nil` `*csi.VolumeCapability`. -/
def nilVolumeCapability : VolumeCapability := { accessMode := .unspecified, accessType := none }

/-- `supportedAccessModes` from the controller source. -/
def supportedAccessModes : List AccessMode :=
  [.singleNodeWriter, .singleNodeReaderOnly, .singleNodeSingleWriter, .singleNodeMultiWriter]

/-- `validateVolumeCapability` from `pkg/driver` helpers: returns
`(block, mount)` or an error when the mode is unsupported or the access type
is missing (block-and-mount cannot both be set in this model, as in the
proto oneof). -/
def validateVolumeCapability (vc : VolumeCapability) : Except String (Bool × Bool) :=
  if vc.accessMode ∉ supportedAccessModes then .error "mode not supported"
  else
    let bl : Bool := vc.accessType = some .block
    let mnt : Bool := vc.accessType = some .mount
    if bl ∧ mnt then .error "both mount and block volume type specified"
    else if ¬bl ∧ ¬mnt then .error "one of block or mount access type is not specified"
    else .ok (bl, mnt)

/-- The loop of `validateVolumeCapabilities`. -/
def validateVolumeCapabilitiesLoop : List VolumeCapability → Except String Unit
  | [] => .ok ()
  | vc :: rest =>
    match validateVolumeCapability vc with
    | .error e => .error e
    | .ok _ => validateVolumeCapabilitiesLoop rest

/-- `validateVolumeCapabilities` from `pkg/driver` helpers. -/
def validateVolumeCapabilities (vcs : List VolumeCapability) (optional : Bool) :
    Except String Unit :=
  if optional = false ∧ vcs = [] then .error "no volumeCapabilities were provided"
  else validateVolumeCapabilitiesLoop vcs

/-- `strconv.ParseBool`, modelled from the Go standard library. -/
def parseBool (s : GoStr) : Option Bool :=
  if s = "1".toList ∨ s = "t".toList ∨ s = "T".toList ∨ s = "TRUE".toList ∨
      s = "true".toList ∨ s = "True".toList then some true
  else if s = "0".toList ∨ s = "f".toList ∨ s = "F".toList ∨ s = "FALSE".toList ∨
      s = "false".toList ∨ s = "False".toList then some false
  else none

/-- `strings.ToLower`, character-wise. -/
def toLowerStr (s : GoStr) : GoStr := s.map Char.toLower

/-- `LegacyDefaultVolumeType` from `pkg/scaleway` ("b_ssd"). -/
def LegacyDefaultVolumeType : GoStr := "b_ssd".toList

/-- `LegacyDefaultVolumeTypeIOPS` from `pkg/scaleway` (5000). -/
def LegacyDefaultVolumeTypeIOPS : Nat := 5000

/-- Parameter keys of the controller (lowercased before comparison). -/
def volumeTypeKey : GoStr := "type".toList

def encryptedKey : GoStr := "encrypted".toList

def volumeIOPSKey : GoStr := "iops".toList

/-- The parameter loop of `parseCreateVolumeParams` (the parameters map
iterated in list order), accumulating `(perfIOPS, encrypted, volumeType)`;
an unknown key is an error. The parsed iops goes through `uint32`. -/
def parseCreateVolumeParamsLoop :
    List (GoStr × GoStr) → Option Nat → Bool → GoStr →
    Except String (Option Nat × Bool × GoStr)
  | [], perfIOPS, encrypted, volumeType => .ok (perfIOPS, encrypted, volumeType)
  | (key, value) :: rest, perfIOPS, encrypted, volumeType =>
    if toLowerStr key = volumeTypeKey then
      if value ≠ LegacyDefaultVolumeType then .error "unknown volume type"
      else parseCreateVolumeParamsLoop rest perfIOPS encrypted value
    else if toLowerStr key = encryptedKey then
      match parseBool value with
      | none => .error "invalid bool value"
      | some b => parseCreateVolumeParamsLoop rest perfIOPS b volumeType
    else if toLowerStr key = volumeIOPSKey then
      match parseUint value with
      | none => .error "invalid iops value"
      | some iops => parseCreateVolumeParamsLoop rest (some (iops % 2 ^ 32)) encrypted volumeType
    else .error "invalid parameter key"

/-- `parseCreateVolumeParams` from `pkg/driver` helpers: parses the
StorageClass parameters; the legacy `type=b_ssd` is only compatible with
`iops=5000`. -/
def parseCreateVolumeParams (params : List (GoStr × GoStr)) :
    Except String (Option Nat × Bool) :=
  match parseCreateVolumeParamsLoop params none false [] with
  | .error e => .error e
  | .ok (perfIOPS, encrypted, volumeType) =>
    match perfIOPS with
    | some iops =>
      if volumeType = LegacyDefaultVolumeType ∧ iops ≠ LegacyDefaultVolumeTypeIOPS then
        .error "volume type b_ssd only supports 5000 iops"
      else .ok (some iops, encrypted)
    | none => .ok (none, encrypted)

/-- `scwSizetoInt64` from `pkg/driver` helpers (the source panics above
`2^63 - 1`, outside the model's range of interest). -/
def scwSizetoInt64 (s : Nat) : Int := (s : Int)

/-- The CSI volume returned by the controller. -/
structure CSIVolume where
  volumeId : GoStr
  capacityBytes : Int
  accessibleTopology : List (GoStr × GoStr)
  contentSourceSnapshotId : Option GoStr
  volumeContext : List (GoStr × GoStr)
deriving DecidableEq

/-- `csiVolume` from `pkg/driver` helpers (the volume context is filled by
the CreateVolume RPC afterwards, as in the source). -/
def csiVolume (volume : BlockVolume) : CSIVolume :=
  { volumeId := expandZonalID volume.id volume.zone,
    capacityBytes := scwSizetoInt64 volume.size,
    accessibleTopology := [(ZoneTopologyKey, volume.zone)],
    contentSourceSnapshotId := volume.parentSnapshotID.map (expandZonalID · volume.zone),
    volumeContext := [] }

/-- `publishedNodeIDs` from `pkg/driver` helpers: the zonal id of the first
`instance_server` reference of the volume (at most one element). -/
def publishedNodeIDs (volume : BlockVolume) : List GoStr :=
  match volume.references.find?
      (fun r => decide (r.productResourceType = InstanceServerProductResourceType)) with
  | some r => [expandZonalID r.productResourceID volume.zone]
  | none => []

/-- The name-lookup loop of `getOrCreateVolume`: try each candidate zone;
`ErrVolumeNotFound` moves to the next zone, any other error aborts. -/
def lookupVolumeByNameInZones (st : FakeState) (name : GoStr) (size : Nat) :
    List Zone → Except ScwErr (Option BlockVolume)
  | [] => .ok none
  | z :: zs =>
    match fakeGetVolumeByName st name size z with
    | .ok v => .ok (some v)
    | .error e =>
      if e = .volumeNotFound then lookupVolumeByNameInZones st name size zs
      else .error e

/-- The creation loop of `getOrCreateVolume`: try each candidate zone until
one creation succeeds; if all fail the joined error surfaces as an internal
error. -/
def createVolumeInZones (st : FakeState) (name snapshotID : GoStr) (size : Int) :
    List Zone → Except ScwErr BlockVolume × FakeState
  | [] => (.error .other, st)
  | z :: zs =>
    match fakeCreateVolume st name snapshotID size z with
    | (.ok v, st2) => (.ok v, st2)
    | (.error _, st2) => createVolumeInZones st2 name snapshotID size zs

/-- `getOrCreateVolume` from `pkg/driver` helpers: default to the empty zone
when no candidate zone is given, reject negative sizes (`NewSize`), look the
volume up by name in each candidate zone, and create it if absent. -/
def getOrCreateVolume (st : FakeState) (name snapshotID : GoStr) (size : Int)
    (zones : List Zone) : Except ScwErr BlockVolume × FakeState :=
  let zones := if zones = [] then [([] : GoStr)] else zones
  if size < 0 then (.error .other, st)
  else
    match lookupVolumeByNameInZones st name size.toNat zones with
    | .error e => (.error e, st)
    | .ok (some v) => (.ok v, st)
    | .ok none => createVolumeInZones st name snapshotID size zones

/-- The CreateVolume request, after the mechanical gRPC decoding: the name,
capacity range, capabilities and parameters as sent by the CO; `snapshotID`
is the id extracted from the content source (empty when the request has
none) and `chosenZones` the candidate zones — in the source these are
computed deterministically from the request's accessibility requirements and
the snapshot zone by `chooseZones`, and the claim quantifies over them
directly. -/
structure CreateVolumeRequest where
  name : GoStr
  capacityRange : Option CapacityRange
  volumeCapabilities : List VolumeCapability
  parameters : List (GoStr × GoStr)
  snapshotID : GoStr
  chosenZones : List Zone
deriving DecidableEq

/-- `controllerService.CreateVolume`: validate the name, capabilities,
parameters and capacity range, compute the stored name
`<driver-prefix><name>`, get or create the volume, and return the CSI volume
with the `encrypted` volume context. `namePfx` is the driver's configured
volume-name prefix. -/
def createVolumeRPC (namePfx : GoStr) (st : FakeState) (req : CreateVolumeRequest) :
    Except Code CSIVolume × FakeState :=
  if req.name = [] then (.error .invalidArgument, st)
  else
    match validateVolumeCapabilities req.volumeCapabilities false with
    | .error _ => (.error .invalidArgument, st)
    | .ok _ =>
      match parseCreateVolumeParams req.parameters with
      | .error _ => (.error .invalidArgument, st)
      | .ok (_, encrypted) =>
        match getVolumeRequestCapacity req.capacityRange with
        | .error _ => (.error .outOfRange, st)
        | .ok size =>
          let scwVolumeName := namePfx ++ req.name
          match getOrCreateVolume st scwVolumeName req.snapshotID size req.chosenZones with
          | (.error e, st2) => (.error (codeFromScalewayError e), st2)
          | (.ok volume, st2) =>
            let cv := csiVolume volume
            let encVal := if encrypted then "true".toList else "false".toList
            (.ok { cv with volumeContext := [(encryptedKey, encVal)] }, st2)

/-- `csi.ControllerPublishVolumeRequest` (the fields the handler reads). -/
structure ControllerPublishVolumeRequest where
  volumeId : GoStr
  nodeId : GoStr
  volumeCapability : Option VolumeCapability
deriving DecidableEq

/-- `controllerService.ControllerPublishVolume` against the Fake client.
The final `Bool` records whether `AttachVolume` was called. -/
def controllerPublishVolume (st : FakeState) (req : ControllerPublishVolumeRequest) :
    Except Code (List (GoStr × GoStr)) × FakeState × Bool :=
  match ExtractIDAndZone req.volumeId with
  | .error _ => (.error .invalidArgument, st, false)
  | .ok (volumeID, volumeZone) =>
    match ExtractIDAndZone req.nodeId with
    | .error _ => (.error .invalidArgument, st, false)
    | .ok (nodeID, nodeZone) =>
      match validateVolumeCapabilities [req.volumeCapability.getD nilVolumeCapability] false with
      | .error _ => (.error .invalidArgument, st, false)
      | .ok _ =>
        match fakeGetVolume st volumeID volumeZone with
        | .error e => (.error (codeFromScalewayError e), st, false)
        | .ok volumeResp =>
          match fakeGetServer st nodeID nodeZone with
          | .error e => (.error (codeFromScalewayError e), st, false)
          | .ok server =>
            let publishContext :=
              [(scwVolumeNameKey, volumeResp.name),
               (scwVolumeIDKey, volumeResp.id),
               (scwVolumeZoneKey, volumeResp.zone)]
            match publishedNodeIDs volumeResp with
            | id0 :: _ =>
              if id0 = expandZonalID server.id server.zone then
                (.ok publishContext, st, false)
              else (.error .failedPrecondition, st, false)
            | [] =>
              if server.volumes.length = MaxVolumesPerNode then
                (.error .resourceExhausted, st, false)
              else
                match fakeAttachVolume st nodeID volumeID volumeZone with
                | (.ok _, st2) => (.ok publishContext, st2, true)
                | (.error _, st2) => (.error .internal, st2, true)

/-- `controllerService.ControllerUnpublishVolume` against the Fake client.
The final `Bool` records whether `DetachVolume` was called. -/
def controllerUnpublishVolume (st : FakeState) (volumeIdReq nodeIdReq : GoStr) :
    Except Code Unit × FakeState × Bool :=
  match ExtractIDAndZone volumeIdReq with
  | .error _ => (.error .invalidArgument, st, false)
  | .ok (volumeID, volumeZone) =>
    match ExtractIDAndZone nodeIdReq with
    | .error _ => (.error .invalidArgument, st, false)
    | .ok (nodeID, nodeZone) =>
      match fakeGetVolume st volumeID volumeZone with
      | .error e =>
        if codeFromScalewayError e = .notFound then (.ok (), st, false)
        else (.error (codeFromScalewayError e), st, false)
      | .ok volume =>
        if publishedNodeIDs volume = [] then (.ok (), st, false)
        else
          match fakeGetServer st nodeID nodeZone with
          | .error e =>
            if codeFromScalewayError e = .notFound then (.ok (), st, false)
            else (.error (codeFromScalewayError e), st, false)
          | .ok _ =>
            match fakeDetachVolume st volumeID volumeZone with
            | (.ok _, st2) => (.ok (), st2, true)
            | (.error _, st2) => (.error .internal, st2, true)

/-- `csi.ControllerExpandVolumeRequest` (the fields the handler reads). -/
structure ControllerExpandVolumeRequest where
  volumeId : GoStr
  capacityRange : Option CapacityRange
  volumeCapability : Option VolumeCapability
deriving DecidableEq

/-- The tail of `ControllerExpandVolume` after the capability check: fetch
the volume, resolve the requested size, no-op when the volume is already at
least that large, else resize. The result carries
`(capacity_bytes, node_expansion_required)`; the final `Bool` records
whether `ResizeVolume` was called. -/
def controllerExpandVolumeRest (st : FakeState) (volumeID : GoStr) (volumeZone : Zone)
    (capacityRange : Option CapacityRange) (nodeExpansionRequired : Bool) :
    Except Code (Int × Bool) × FakeState × Bool :=
  match fakeGetVolume st volumeID volumeZone with
  | .error e => (.error (codeFromScalewayError e), st, false)
  | .ok volumeResp =>
    match getVolumeRequestCapacity capacityRange with
    | .error _ => (.error .outOfRange, st, false)
    | .ok newSize =>
      if scwSizetoInt64 volumeResp.size ≥ newSize then
        (.ok (scwSizetoInt64 volumeResp.size, nodeExpansionRequired), st, false)
      else
        match fakeResizeVolume st volumeID volumeZone newSize with
        | (.ok _, st2) => (.ok (newSize, nodeExpansionRequired), st2, true)
        | (.error e, st2) => (.error (codeFromScalewayError e), st2, true)

/-- `controllerService.ControllerExpandVolume` against the Fake client:
`node_expansion_required` starts `true` and becomes `false` when the given
capability is of block access type. -/
def controllerExpandVolume (st : FakeState) (req : ControllerExpandVolumeRequest) :
    Except Code (Int × Bool) × FakeState × Bool :=
  match ExtractIDAndZone req.volumeId with
  | .error _ => (.error .invalidArgument, st, false)
  | .ok (volumeID, volumeZone) =>
    match req.volumeCapability with
    | some volumeCapability =>
      match validateVolumeCapability volumeCapability with
      | .error _ => (.error .invalidArgument, st, false)
      | .ok (bl, _) =>
        controllerExpandVolumeRest st volumeID volumeZone req.capacityRange
          (if bl then false else true)
    | none => controllerExpandVolumeRest st volumeID volumeZone req.capacityRange true

/-- `Scaleway.GetVolumeByName` from `pkg/scaleway/block.go`, over the
listing returned by the name-filtered `ListVolumes` call: the loop checks
each listed volume's size BEFORE its name. -/
def GetVolumeByName (listing : List BlockVolume) (name : GoStr) (size : Nat) :
    Except ScwErr BlockVolume :=
  match listing with
  | [] => .error .volumeNotFound
  | vol :: rest =>
    if vol.size ≠ size then .error .volumeDifferentSize
    else if vol.name = name then .ok vol
    else GetVolumeByName rest name size

/-- Hexadecimal digit (`xtob` in the google uuid library). -/
def isHexDigit (c : Char) : Bool :=
  c.isDigit || ('a' ≤ c ∧ c ≤ 'f') || ('A' ≤ c ∧ c ≤ 'F')

/-- The canonical 36-character `8-4-4-4-12` UUID layout. -/
def isCanonicalUUID (s : GoStr) : Bool :=
  s.length = 36 &&
    (List.range 36).all (fun i =>
      if i = 8 ∨ i = 13 ∨ i = 18 ∨ i = 23 then s.getD i ' ' = '-'
      else isHexDigit (s.getD i ' '))

/-- `isValidUUID` from `pkg/scaleway`, i.e. `uuid.Parse(u) == nil`, modelled
from the google uuid library: canonical form, `urn:uuid:` prefix
(case-insensitive), braced form, or 32 hex characters. -/
def isValidUUID (s : GoStr) : Bool :=
  if s.length = 36 then isCanonicalUUID s
  else if s.length = 36 + 9 then
    toLowerStr (s.take 9) = "urn:uuid:".toList && isCanonicalUUID (s.drop 9)
  else if s.length = 36 + 2 then
    s.getD 0 ' ' = '{' && s.getD 37 ' ' = '}' && isCanonicalUUID ((s.drop 1).take 36)
  else if s.length = 32 then s.all isHexDigit
  else false

/-- The UUID pre-check head of `Scaleway.GetVolume` (`pkg/scaleway/block.go`):
`some NotFound` short-circuits before any network call, `none` proceeds. -/
def getVolumePrecheck (volumeID : GoStr) : Option ScwErr :=
  if ¬ isValidUUID volumeID then some .notFound else none

/-- The UUID pre-check head of `Scaleway.DeleteVolume`. -/
def deleteVolumePrecheck (volumeID : GoStr) : Option ScwErr :=
  if ¬ isValidUUID volumeID then some .notFound else none

/-- The UUID pre-check head of `Scaleway.GetSnapshot`. -/
def getSnapshotPrecheck (snapshotID : GoStr) : Option ScwErr :=
  if ¬ isValidUUID snapshotID then some .notFound else none

/-- The UUID pre-check head of `Scaleway.DeleteSnapshot`. -/
def deleteSnapshotPrecheck (snapshotID : GoStr) : Option ScwErr :=
  if ¬ isValidUUID snapshotID then some .notFound else none

/-- The UUID pre-check head of `Scaleway.ResizeVolume`. -/
def resizeVolumePrecheck (volumeID : GoStr) : Option ScwErr :=
  if ¬ isValidUUID volumeID then some .notFound else none

/-- The UUID pre-check head of `Scaleway.CreateVolume` when a snapshot
source is given (`snapshotID != ""`). -/
def createVolumeFromSnapshotPrecheck (snapshotID : GoStr) : Option ScwErr :=
  if snapshotID ≠ [] ∧ ¬ isValidUUID snapshotID then some .notFound else none

/-- The UUID pre-check head of `Scaleway.WaitForSnapshot`. -/
def waitForSnapshotPrecheck (snapshotID : GoStr) : Option ScwErr :=
  if ¬ isValidUUID snapshotID then some .notFound else none

/-- The UUID pre-check head of `Scaleway.GetServer` (`instance.go`). -/
def getServerPrecheck (serverID : GoStr) : Option ScwErr :=
  if ¬ isValidUUID serverID then some .notFound else none

/-- The UUID pre-check head of `Scaleway.AttachVolume` (`instance.go`):
both ids are validated. -/
def attachVolumePrecheck (serverID volumeID : GoStr) : Option ScwErr :=
  if ¬ isValidUUID serverID then some .notFound
  else if ¬ isValidUUID volumeID then some .notFound
  else none

/-- The head of `Scaleway.DetachVolume` (`instance.go:58`): the function
issues the `instance.DetachVolume` network call directly — it has NO UUID
pre-check, unlike every other by-id operation of the client. -/
def detachVolumePrecheck (_volumeID : GoStr) : Option ScwErr := none

/-- `Scaleway.DeleteVolume` with the remote outcome abstracted as `remote`
(`none` = the remote delete succeeds): the UUID pre-check synthesizes
NotFound without the call; the returned `Bool` records whether the network
call was made. -/
def scalewayDeleteVolume (remote : Option ScwErr) (volumeID : GoStr) :
    Option ScwErr × Bool :=
  match deleteVolumePrecheck volumeID with
  | some e => (some e, false)
  | none => (remote, true)

/-- `controllerService.DeleteVolume`: parse the zonal id, call the client's
DeleteVolume, and treat NotFound as success; the `Bool` records whether the
network was reached. -/
def deleteVolumeRPC (remote : Option ScwErr) (reqVolumeId : GoStr) :
    Except Code Unit × Bool :=
  match ExtractIDAndZone reqVolumeId with
  | .error _ => (.error .invalidArgument, false)
  | .ok (volumeID, _) =>
    match scalewayDeleteVolume remote volumeID with
    | (some e, called) =>
      if codeFromScalewayError e = .notFound then (.ok (), called)
      else (.error (codeFromScalewayError e), called)
    | (none, called) => (.ok (), called)

/-- One volume of the instance metadata (`instance.Metadata.Volumes`). -/
structure MetadataVolume where
  volumeType : GoStr
deriving DecidableEq

/-- The instance metadata fields read by the node service. -/
structure InstanceMetadata where
  volumes : List MetadataVolume
deriving DecidableEq

/-- `attachedScratchVolumes` from `pkg/driver` helpers: the number of
volumes of type "scratch" in the instance metadata. -/
def attachedScratchVolumes (md : InstanceMetadata) : Nat :=
  (md.volumes.filter (fun v => decide (v.volumeType = "scratch".toList))).length

/-- `maxVolumesPerNode` from `pkg/driver` helpers: `MaxVolumesPerNode` minus
the reserved count minus the root volume; an error when the result is not
positive. -/
def maxVolumesPerNode (reservedCount : Nat) : Except String Int :=
  let m : Int := (MaxVolumesPerNode : Int) - reservedCount - 1
  if m ≤ 0 then .error "max number of volumes that can be attached to this node must be at least 1"
  else .ok m

/-- The NodeGetInfo response fields. -/
structure NodeGetInfoResponse where
  nodeId : GoStr
  maxVolumesPerNodeCount : Int
  accessibleTopology : List (GoStr × GoStr)
deriving DecidableEq

/-- `nodeService.NodeGetInfo` from `pkg/driver/node.go`: infallible. It
returns `node_id = "<zone>/<id>"`,
`max_volumes_per_node = MaxVolumesPerNode - 1` (one slot reserved for the
root volume; the instance metadata is not read, so the helpers
`attachedScratchVolumes` and `maxVolumesPerNode` above stay uncalled) and
the zone topology segment. -/
def NodeGetInfo (nodeZone : Zone) (nodeID : GoStr) : NodeGetInfoResponse :=
  { nodeId := nodeZone ++ '/' :: nodeID,
    maxVolumesPerNodeCount := (MaxVolumesPerNode : Int) - 1,
    accessibleTopology := [(ZoneTopologyKey, nodeZone)] }

/-- The fields of a ListVolumes / ListSnapshots request that its
argument-processing head reads (`max_entries` is an `int32`). -/
structure ListRequestHead where
  startingToken : GoStr
  maxEntries : Int
deriving DecidableEq

/-- The argument-processing head of `controllerService.ListVolumes`: parse
the starting token (Aborted on failure), reject a negative `max_entries`
(InvalidArgument), and reach the Block Service listing with
`(start, uint32(max_entries))`. -/
def listVolumesStart (req : ListRequestHead) : Except Code (Nat × Nat) :=
  match parseStartingToken req.startingToken with
  | .error _ => .error .aborted
  | .ok start =>
    if req.maxEntries < 0 then .error .invalidArgument
    else .ok (start, req.maxEntries.toNat)

/-- The argument-processing head of `controllerService.ListSnapshots`,
identical to the ListVolumes one. -/
def listSnapshotsStart (req : ListRequestHead) : Except Code (Nat × Nat) :=
  match parseStartingToken req.startingToken with
  | .error _ => .error .aborted
  | .ok start =>
    if req.maxEntries < 0 then .error .invalidArgument
    else .ok (start, req.maxEntries.toNat)

/-- A listing entry for the C7 counterexample: returned by the name-filtered
listing (the service name filter is not an exact match), its name is not the
requested one and its size differs from the requested size. -/
def c7Volume : BlockVolume :=
  { id := "11111111-2222-3333-4444-555555555555".toList, name := "foo-bar".toList,
    size := 5, zone := "fr-par-1".toList, status := .available,
    parentSnapshotID := none, references := [] }

/-- C7 counterexample: `GetVolumeByName` fails with `ErrVolumeDifferentSize`
on a listing containing only a volume whose name does NOT match the
requested name — the loop checks the size before the name, so a listed
volume with a non-matching name does affect the outcome, contrary to the
claim's "exactly when a volume whose name matches exactly has a size
different from the requested size". -/
theorem C7_get_volume_by_name_counterexample :
    GetVolumeByName [c7Volume] ("foo".toList) 10 = .error .volumeDifferentSize ∧
    c7Volume.name ≠ "foo".toList ∧
    (¬ ∃ v ∈ [c7Volume], v.name = "foo".toList) := by
  refine ⟨by decide, by decide, ?_⟩
  rintro ⟨v, hv, hname⟩
  simp only [List.mem_singleton] at hv
  subst hv
  exact absurd hname (by decide)

/-- C7 (amended): `GetVolumeByName` scans the listing in order, skipping
volumes whose size equals the requested size but whose name does not match;
at the first volume not skipped it fails with `ErrVolumeDifferentSize` when
that volume's size differs from the requested size — whether or not its
name matches exactly — and returns it otherwise (its name then matches);
when every listed volume is skipped it fails with `ErrVolumeNotFound`. -/
theorem C7_get_volume_by_name (listing : List BlockVolume) (name : GoStr) (size : Nat) :
    GetVolumeByName listing name size =
      match listing.dropWhile (fun v => decide (v.size = size ∧ v.name ≠ name)) with
      | [] => .error .volumeNotFound
      | v :: _ => if v.size ≠ size then .error .volumeDifferentSize else .ok v := by
  induction listing with
  | nil => rfl
  | cons v rest ih =>
    by_cases hs : v.size = size
    · by_cases hn : v.name = name
      · simp [GetVolumeByName, List.dropWhile, hs, hn]
      · simp [GetVolumeByName, List.dropWhile, hs, hn, ih]
    · simp [GetVolumeByName, List.dropWhile, hs]

/-- C8 counterexample: `"not-a-uuid"` is not a well-formed UUID, yet
`Scaleway.DetachVolume` performs no UUID pre-check (its head proceeds
straight to the network call), refuting the claim's inclusion of detach in
the list of guarded operations. -/
theorem C8_uuid_precheck_counterexample :
    isValidUUID ("not-a-uuid".toList) = false ∧
    detachVolumePrecheck ("not-a-uuid".toList) = none := by
  exact ⟨by decide, rfl⟩

/-- C8 (amended): every Cloud Client operation that takes a resource ID —
get volume/snapshot/server, delete volume/snapshot, create-from-snapshot,
attach, resize, wait-for-snapshot, but NOT detach — returns a synthesized
NotFound without any network call when the ID is not a well-formed UUID;
and the DeleteVolume RPC with a non-UUID volume ID returns success without
contacting the service. -/
theorem C8_uuid_precheck (id vid : GoStr) (remote : Option ScwErr)
    (h : isValidUUID id = false) :
    getVolumePrecheck id = some .notFound ∧
    deleteVolumePrecheck id = some .notFound ∧
    getSnapshotPrecheck id = some .notFound ∧
    deleteSnapshotPrecheck id = some .notFound ∧
    resizeVolumePrecheck id = some .notFound ∧
    (id ≠ [] → createVolumeFromSnapshotPrecheck id = some .notFound) ∧
    waitForSnapshotPrecheck id = some .notFound ∧
    getServerPrecheck id = some .notFound ∧
    attachVolumePrecheck id vid = some .notFound ∧
    (isValidUUID vid = true → attachVolumePrecheck vid id = some .notFound) ∧
    (∀ reqId z, ExtractIDAndZone reqId = .ok (id, z) →
      deleteVolumeRPC remote reqId = (.ok (), false)) := by
  have hnot : ¬ isValidUUID id = true := by simp [h]
  refine ⟨?_, ?_, ?_, ?_, ?_, ?_, ?_, ?_, ?_, ?_, ?_⟩
  · simp [getVolumePrecheck, hnot]
  · simp [deleteVolumePrecheck, hnot]
  · simp [getSnapshotPrecheck, hnot]
  · simp [deleteSnapshotPrecheck, hnot]
  · simp [resizeVolumePrecheck, hnot]
  · intro hne
    simp [createVolumeFromSnapshotPrecheck, hnot, hne]
  · simp [waitForSnapshotPrecheck, hnot]
  · simp [getServerPrecheck, hnot]
  · simp [attachVolumePrecheck, hnot]
  · intro hv
    simp [attachVolumePrecheck, hnot, hv]
  · intro reqId z hx
    rw [deleteVolumeRPC, hx]
    simp [scalewayDeleteVolume, deleteVolumePrecheck, hnot, codeFromScalewayError]

/-- C8 witness: the amended statement applied at the concrete non-UUID id
`"abc"`, including the DeleteVolume RPC success without a network call. -/
theorem C8_uuid_precheck_witness :
    deleteVolumePrecheck ("abc".toList) = some .notFound ∧
    detachVolumePrecheck ("abc".toList) = none ∧
    deleteVolumeRPC none ("abc".toList) = (.ok (), false) := by
  have h := C8_uuid_precheck ("abc".toList)
    ("11111111-2222-3333-4444-555555555555".toList) none (by decide)
  exact ⟨h.2.1, rfl, h.2.2.2.2.2.2.2.2.2.2 ("abc".toList) [] (by decide)⟩

/-- C9 counterexample: on a node whose instance metadata lists one local
"scratch" volume, the claim requires
`max_volumes_per_node = 16 - 1 - 1 = 14`, but the handler returns `15`:
`NodeGetInfo` never reads the metadata and subtracts no scratch volumes
(`attachedScratchVolumes` and `maxVolumesPerNode` are uncalled in the
program). -/
theorem C9_node_get_info_counterexample :
    (NodeGetInfo ("fr-par-1".toList) ("instance-1".toList)).maxVolumesPerNodeCount = 15 ∧
    (MaxVolumesPerNode : Int) - 1 -
      attachedScratchVolumes { volumes := [{ volumeType := "scratch".toList }] } = 14 :=
  ⟨rfl, rfl⟩

/-- C9 (amended): `NodeGetInfo` returns `node_id = "<zone>/<id>"` (the zonal
id of the local instance), `max_volumes_per_node = MaxVolumesPerNode - 1
= 15` with no scratch-volume subtraction — the instance metadata does not
enter the computation — and an accessible topology holding exactly the
`ZoneTopologyKey` segment mapped to the local zone. -/
theorem C9_node_get_info (nodeZone : Zone) (nodeID : GoStr) :
    (NodeGetInfo nodeZone nodeID).nodeId = expandZonalID nodeID nodeZone ∧
    (NodeGetInfo nodeZone nodeID).maxVolumesPerNodeCount = 15 ∧
    (NodeGetInfo nodeZone nodeID).accessibleTopology = [(ZoneTopologyKey, nodeZone)] :=
  ⟨rfl, rfl, rfl⟩

/-- C10 counterexample: a request whose starting token does not parse AND
whose `max_entries` is negative returns `Aborted`, not `InvalidArgument` —
the token is checked first — refuting the claim's "for every request whose
max_entries field is negative, the RPC returns an InvalidArgument error". -/
theorem C10_max_entries_counterexample :
    listVolumesStart { startingToken := "abcd".toList, maxEntries := -1 } =
      .error .aborted ∧
    listSnapshotsStart { startingToken := "abcd".toList, maxEntries := -1 } =
      .error .aborted ∧
    Code.aborted ≠ Code.invalidArgument := by
  exact ⟨by decide, by decide, by decide⟩

/-- C10 (amended): for every ListVolumes or ListSnapshots request whose
`max_entries` is negative AND whose starting token parses (the token check
runs first and yields `Aborted` otherwise), the RPC returns
`InvalidArgument` without querying the Block Service; and only requests
with `max_entries ≥ 0` reach the paginated listing. -/
theorem C10_negative_max_entries (req : ListRequestHead) :
    (req.maxEntries < 0 → ∀ s, parseStartingToken req.startingToken = .ok s →
      listVolumesStart req = .error .invalidArgument ∧
      listSnapshotsStart req = .error .invalidArgument) ∧
    (∀ start m, listVolumesStart req = .ok (start, m) → 0 ≤ req.maxEntries) ∧
    (∀ start m, listSnapshotsStart req = .ok (start, m) → 0 ≤ req.maxEntries) := by
  refine ⟨?_, ?_, ?_⟩
  · intro hneg s hs
    rw [listVolumesStart, listSnapshotsStart, hs]
    simp [hneg]
  · intro start m h
    rw [listVolumesStart] at h
    match hp : parseStartingToken req.startingToken with
    | .error e => rw [hp] at h; exact absurd h (by simp)
    | .ok s =>
      rw [hp] at h
      by_cases hneg : req.maxEntries < 0
      · simp [hneg] at h
      · omega
  · intro start m h
    rw [listSnapshotsStart] at h
    match hp : parseStartingToken req.startingToken with
    | .error e => rw [hp] at h; exact absurd h (by simp)
    | .ok s =>
      rw [hp] at h
      by_cases hneg : req.maxEntries < 0
      · simp [hneg] at h
      · omega

/-- C10 witness: an empty token parses to offset 0, so a negative
`max_entries` yields `InvalidArgument` on both RPC heads. -/
theorem C10_negative_max_entries_witness :
    listVolumesStart { startingToken := [], maxEntries := -1 } =
      .error .invalidArgument ∧
    listSnapshotsStart { startingToken := [], maxEntries := -1 } =
      .error .invalidArgument := by
  exact (C10_negative_max_entries { startingToken := [], maxEntries := -1 }).1
    (by decide) 0 (by decide)

theorem getVolumeRequestCapacity_pos (cr : Option CapacityRange) (s : Int)
    (h : getVolumeRequestCapacity cr = .ok s) : 0 < s := by
  match cr with
  | none =>
    simp only [getVolumeRequestCapacity, Except.ok.injEq] at h
    rw [← h, MinVolumeSize]
    omega
  | some cr =>
    simp only [getVolumeRequestCapacity] at h
    split_ifs at h with h1 h2 h3 h4 h5 h6 h7 <;>
      simp only [Except.ok.injEq] at h <;>
      simp only [decide_eq_true_eq, not_lt, Bool.not_eq_true, decide_eq_false_iff_not] at * <;>
      rw [← h] <;>
      first
        | (rw [MinVolumeSize]; omega)
        | omega

theorem fakeGetVolume_ok (st : FakeState) (vid : GoStr) (z : Zone) (v : BlockVolume)
    (h : fakeGetVolume st vid z = .ok v) :
    st.volumes.find? (fun w => decide (w.id = vid)) = some v ∧
    v.zone = zoneOrDefault st z := by
  match hf : st.volumes.find? (fun w => decide (w.id = vid)) with
  | some w =>
    simp only [fakeGetVolume, hf] at h
    by_cases hz : w.zone = zoneOrDefault st z
    · rw [if_pos hz] at h
      injection h with h
      subst h
      exact ⟨hf, hz⟩
    · rw [if_neg hz] at h
      exact absurd h (by simp)
  | none =>
    simp only [fakeGetVolume, hf] at h
    exact absurd h (by simp)

/-- An arbitrary default volume, for indexed access with `List.getD`. -/
def emptyVolume : BlockVolume :=
  { id := [], name := [], size := 0, zone := [], status := .available,
    parentSnapshotID := none, references := [] }

theorem fakeResizeVolume_volumes_mono (st : FakeState) (vid : GoStr) (zone : Zone)
    (size : Int) (hnd : (st.volumes.map BlockVolume.id).Nodup) (i : Nat) :
    (st.volumes.getD i emptyVolume).size ≤
      ((fakeResizeVolume st vid zone size).2.volumes.getD i emptyVolume).size := by
  match hf : st.volumes.find? (fun v => decide (v.id = vid)) with
  | none =>
    simp only [fakeResizeVolume, hf]
    split
    next => exact Nat.le_refl _
    next => exact Nat.le_refl _
  | some v =>
    simp only [fakeResizeVolume, hf]
    have hvmem : v ∈ st.volumes := List.mem_of_find?_eq_some hf
    have hvid : v.id = vid := by
      have := List.find?_some hf
      simpa using this
    split
    next => exact Nat.le_refl _
    next =>
      by_cases hz : v.zone = zoneOrDefault st zone
      · rw [if_pos hz]
        by_cases hlt : size.toNat < v.size
        · rw [if_pos hlt]
        · rw [if_neg hlt]
          simp only [List.getD_eq_getElem?_getD, List.getElem?_map]
          match hgi : st.volumes[i]? with
          | none => exact Nat.le_refl _
          | some w =>
            simp only [Option.map_some', Option.getD_some]
            have hwmem : w ∈ st.volumes := List.getElem?_mem hgi
            by_cases hw : w.id = vid
            · rw [if_pos hw]
              have hwv : w = v :=
                List.inj_on_of_nodup_map hnd hwmem hvmem (by rw [hw, hvid])
              subst hwv
              exact Nat.not_lt.mp hlt
            · rw [if_neg hw]
      · rw [if_neg hz]

theorem validateVolumeCapability_ok_block (c : VolumeCapability) (bl mnt : Bool)
    (h : validateVolumeCapability c = .ok (bl, mnt)) :
    bl = true ↔ c.accessType = some .block := by
  by_cases hm : c.accessMode ∉ supportedAccessModes
  · simp only [validateVolumeCapability, if_pos hm] at h
    exact absurd h (by simp)
  · match hat : c.accessType with
    | some .block =>
      have hcomp : validateVolumeCapability c = .ok (true, false) := by
        simp [validateVolumeCapability, hat, hm]
      rw [hcomp] at h
      have hpair := Except.ok.inj h
      rw [Prod.mk.injEq] at hpair
      rw [← hpair.1]
      simp
    | some .mount =>
      have hcomp : validateVolumeCapability c = .ok (false, true) := by
        simp [validateVolumeCapability, hat, hm]
      rw [hcomp] at h
      have hpair := Except.ok.inj h
      rw [Prod.mk.injEq] at hpair
      rw [← hpair.1]
      simp
    | none =>
      have hcomp : validateVolumeCapability c =
          .error "one of block or mount access type is not specified" := by
        simp [validateVolumeCapability, hat, hm]
      rw [hcomp] at h
      exact absurd h (by simp)

theorem controllerExpandVolumeRest_spec (st : FakeState) (volumeID : GoStr)
    (volumeZone : Zone) (cr : Option CapacityRange) (ner : Bool) (v : BlockVolume)
    (newSize : Int)
    (hv : fakeGetVolume st volumeID volumeZone = .ok v)
    (hcap : getVolumeRequestCapacity cr = .ok newSize) :
    (newSize ≤ scwSizetoInt64 v.size →
      controllerExpandVolumeRest st volumeID volumeZone cr ner =
        (.ok (scwSizetoInt64 v.size, ner), st, false)) ∧
    (scwSizetoInt64 v.size < newSize →
      (controllerExpandVolumeRest st volumeID volumeZone cr ner).1 = .ok (newSize, ner) ∧
      (controllerExpandVolumeRest st volumeID volumeZone cr ner).2.2 = true) := by
  obtain ⟨hfind, hzone⟩ := fakeGetVolume_ok st volumeID volumeZone v hv
  have hpos := getVolumeRequestCapacity_pos cr newSize hcap
  constructor
  · intro hle
    simp only [controllerExpandVolumeRest, hv, hcap]
    rw [if_pos (by exact hle)]
  · intro hlt
    have hlt2 : (v.size : Int) < newSize := by
      simpa [scwSizetoInt64] using hlt
    simp only [controllerExpandVolumeRest, hv, hcap]
    rw [if_neg (by simp only [scwSizetoInt64]; omega)]
    have hres : fakeResizeVolume st volumeID volumeZone newSize =
        (.ok (), { st with volumes := st.volumes.map (fun w =>
          if w.id = volumeID then { w with size := newSize.toNat } else w) }) := by
      simp only [fakeResizeVolume, hfind]
      rw [if_neg (by omega : ¬ newSize < 0), if_pos hzone,
        if_neg (by omega : ¬ newSize.toNat < v.size)]
    rw [hres]
    exact ⟨rfl, rfl⟩

theorem controllerExpandVolumeRest_state (st : FakeState) (vid : GoStr) (vz : Zone)
    (cr : Option CapacityRange) (ner : Bool) :
    (controllerExpandVolumeRest st vid vz cr ner).2.1 = st ∨
    ∃ ns, (controllerExpandVolumeRest st vid vz cr ner).2.1 = (fakeResizeVolume st vid vz ns).2 := by
  match hv : fakeGetVolume st vid vz with
  | .error e =>
    simp only [controllerExpandVolumeRest, hv]
    exact Or.inl trivial
  | .ok v =>
    match hcap : getVolumeRequestCapacity cr with
    | .error e =>
      simp only [controllerExpandVolumeRest, hv, hcap]
      exact Or.inl trivial
    | .ok ns =>
      simp only [controllerExpandVolumeRest, hv, hcap]
      split
      next => exact Or.inl rfl
      next =>
        match hr : fakeResizeVolume st vid vz ns with
        | (.ok u, st2) =>
          simp only [hr]
          exact Or.inr ⟨ns, by rw [hr]⟩
        | (.error e, st2) =>
          simp only [hr]
          exact Or.inr ⟨ns, by rw [hr]⟩

theorem controllerExpandVolume_state (st : FakeState) (req : ControllerExpandVolumeRequest) :
    (controllerExpandVolume st req).2.1 = st ∨
    ∃ vid vz ns, (controllerExpandVolume st req).2.1 = (fakeResizeVolume st vid vz ns).2 := by
  match hx : ExtractIDAndZone req.volumeId with
  | .error e =>
    simp only [controllerExpandVolume, hx]
    exact Or.inl trivial
  | .ok (vid, vz) =>
    match hc : req.volumeCapability with
    | some c =>
      match hval : validateVolumeCapability c with
      | .error e =>
        simp only [controllerExpandVolume, hx, hc, hval]
        exact Or.inl trivial
      | .ok (bl, mnt) =>
        simp only [controllerExpandVolume, hx, hc, hval]
        rcases controllerExpandVolumeRest_state st vid vz req.capacityRange
          (if bl then false else true) with h | ⟨ns, h⟩
        · exact Or.inl h
        · exact Or.inr ⟨vid, vz, ns, h⟩
    | none =>
      simp only [controllerExpandVolume, hx, hc]
      rcases controllerExpandVolumeRest_state st vid vz req.capacityRange true with
        h | ⟨ns, h⟩
      · exact Or.inl h
      · exact Or.inr ⟨vid, vz, ns, h⟩

/-- C6: ControllerExpandVolume size monotonicity. When the resolved target
size is at most the volume's current size, the RPC performs no resize call
and returns the current size with `node_expansion_required` false exactly
when the given capability is of block access type; otherwise it resizes to
the target size; and (under the map-key invariant that volume ids are
unique) no volume's size ever decreases as a result of this RPC. -/
theorem C6_expand_no_shrink (st : FakeState) (req : ControllerExpandVolumeRequest) :
    (∀ volumeID volumeZone v newSize bl mnt,
      ExtractIDAndZone req.volumeId = .ok (volumeID, volumeZone) →
      fakeGetVolume st volumeID volumeZone = .ok v →
      getVolumeRequestCapacity req.capacityRange = .ok newSize →
      (req.volumeCapability = none ∧ bl = false ∨
        ∃ c, req.volumeCapability = some c ∧ validateVolumeCapability c = .ok (bl, mnt)) →
      ((newSize ≤ scwSizetoInt64 v.size →
          controllerExpandVolume st req = (.ok (scwSizetoInt64 v.size, !bl), st, false)) ∧
       (scwSizetoInt64 v.size < newSize →
          (controllerExpandVolume st req).1 = .ok (newSize, !bl) ∧
          (controllerExpandVolume st req).2.2 = true) ∧
       (bl = true ↔ ∃ c, req.volumeCapability = some c ∧ c.accessType = some .block))) ∧
    ((st.volumes.map BlockVolume.id).Nodup →
      ∀ i : Nat,
        (st.volumes.getD i emptyVolume).size ≤
          ((controllerExpandVolume st req).2.1.volumes.getD i emptyVolume).size) := by
  constructor
  · intro volumeID volumeZone v newSize bl mnt hx hv hcap hvc
    have hunfold : controllerExpandVolume st req =
        controllerExpandVolumeRest st volumeID volumeZone req.capacityRange (!bl) := by
      rcases hvc with ⟨hc, hbl⟩ | ⟨c, hc, hval⟩
      · subst hbl
        simp only [controllerExpandVolume, hx, hc]
        rfl
      · simp only [controllerExpandVolume, hx, hc, hval]
        congr 1
        cases bl <;> rfl
    have hspec := controllerExpandVolumeRest_spec st volumeID volumeZone
      req.capacityRange (!bl) v newSize hv hcap
    refine ⟨?_, ?_, ?_⟩
    · intro hle
      rw [hunfold]
      exact hspec.1 hle
    · intro hlt
      rw [hunfold]
      exact hspec.2 hlt
    · rcases hvc with ⟨hc, hbl⟩ | ⟨c, hc, hval⟩
      · subst hbl
        simp [hc]
      · rw [hc]
        have hiff := validateVolumeCapability_ok_block c bl mnt hval
        constructor
        · intro hb
          exact ⟨c, rfl, hiff.mp hb⟩
        · rintro ⟨c2, hc2, hat⟩
          injection hc2 with hc2
          subst hc2
          exact hiff.mpr hat
  · intro hnd i
    rcases controllerExpandVolume_state st req with h | ⟨vid, vz, ns, h⟩
    · rw [h]
    · rw [h]
      exact fakeResizeVolume_volumes_mono st vid vz ns hnd i

/-- C6 witness: a concrete one-volume state. Expanding a 5 GB volume with a
2 GB requirement (mount capability) is a no-op returning 5 GB with
`node_expansion_required = true`; expanding it to 7 GB calls resize, and
the stored sizes never decrease. -/
theorem C6_expand_no_shrink_witness :
    controllerExpandVolume
        { snapshots := [], servers := [], defaultZone := "fr-par-1".toList, nextID := 0,
          volumes := [{ id := "11111111-2222-3333-4444-555555555555".toList,
                        name := "vol".toList, size := 5000000000,
                        zone := "fr-par-1".toList, status := .available,
                        parentSnapshotID := none, references := [] }] }
        { volumeId := "fr-par-1/11111111-2222-3333-4444-555555555555".toList,
          capacityRange := some { requiredBytes := 2000000000, limitBytes := 0 },
          volumeCapability := some { accessMode := .singleNodeWriter,
                                     accessType := some .mount } } =
      (.ok (5000000000, true),
       { snapshots := [], servers := [], defaultZone := "fr-par-1".toList, nextID := 0,
         volumes := [{ id := "11111111-2222-3333-4444-555555555555".toList,
                       name := "vol".toList, size := 5000000000,
                       zone := "fr-par-1".toList, status := .available,
                       parentSnapshotID := none, references := [] }] }, false) := by
  have h := (C6_expand_no_shrink
    { snapshots := [], servers := [], defaultZone := "fr-par-1".toList, nextID := 0,
      volumes := [{ id := "11111111-2222-3333-4444-555555555555".toList,
                    name := "vol".toList, size := 5000000000,
                    zone := "fr-par-1".toList, status := .available,
                    parentSnapshotID := none, references := [] }] }
    { volumeId := "fr-par-1/11111111-2222-3333-4444-555555555555".toList,
      capacityRange := some { requiredBytes := 2000000000, limitBytes := 0 },
      volumeCapability := some { accessMode := .singleNodeWriter,
                                 accessType := some .mount } }).1
    ("11111111-2222-3333-4444-555555555555".toList) ("fr-par-1".toList)
    { id := "11111111-2222-3333-4444-555555555555".toList,
      name := "vol".toList, size := 5000000000,
      zone := "fr-par-1".toList, status := .available,
      parentSnapshotID := none, references := [] }
    2000000000 false true (by decide) (by decide) (by decide)
    (Or.inr ⟨{ accessMode := .singleNodeWriter, accessType := some .mount },
      rfl, by decide⟩)
  exact h.1 (by decide)

/-- C5: ControllerPublishVolume / ControllerUnpublishVolume state handling.
Publish: a volume whose `instance_server` reference already points at the
requested node succeeds with the publish context
`{volume-name, volume-id, volume-zone}` without calling attach; a reference
to a different node is `FailedPrecondition`; a server already holding
`MaxVolumesPerNode` volumes is `ResourceExhausted`; otherwise attach is
called. Unpublish returns success when the volume is gone, when it has no
server reference, and when the referenced server is gone — in each case
without calling detach and leaving the state unchanged. -/
theorem C5_publish_unpublish (st : FakeState) :
    (∀ (req : ControllerPublishVolumeRequest) (volumeID nodeID : GoStr)
        (volumeZone nodeZone : Zone) (volumeResp : BlockVolume) (server : InstanceServer),
      ExtractIDAndZone req.volumeId = .ok (volumeID, volumeZone) →
      ExtractIDAndZone req.nodeId = .ok (nodeID, nodeZone) →
      validateVolumeCapabilities
        [req.volumeCapability.getD nilVolumeCapability] false = .ok () →
      fakeGetVolume st volumeID volumeZone = .ok volumeResp →
      fakeGetServer st nodeID nodeZone = .ok server →
      ((publishedNodeIDs volumeResp = [expandZonalID server.id server.zone] →
          controllerPublishVolume st req =
            (.ok [(scwVolumeNameKey, volumeResp.name),
                  (scwVolumeIDKey, volumeResp.id),
                  (scwVolumeZoneKey, volumeResp.zone)], st, false)) ∧
       (∀ id0 rest, publishedNodeIDs volumeResp = id0 :: rest →
          id0 ≠ expandZonalID server.id server.zone →
          controllerPublishVolume st req = (.error .failedPrecondition, st, false)) ∧
       (publishedNodeIDs volumeResp = [] →
          server.volumes.length = MaxVolumesPerNode →
          controllerPublishVolume st req = (.error .resourceExhausted, st, false)) ∧
       (publishedNodeIDs volumeResp = [] →
          server.volumes.length ≠ MaxVolumesPerNode →
          (controllerPublishVolume st req).2.2 = true))) ∧
    (∀ (volumeIdReq nodeIdReq volumeID nodeID : GoStr) (volumeZone nodeZone : Zone),
      ExtractIDAndZone volumeIdReq = .ok (volumeID, volumeZone) →
      ExtractIDAndZone nodeIdReq = .ok (nodeID, nodeZone) →
      ((∀ e, fakeGetVolume st volumeID volumeZone = .error e →
          codeFromScalewayError e = .notFound →
          controllerUnpublishVolume st volumeIdReq nodeIdReq = (.ok (), st, false)) ∧
       (∀ volume, fakeGetVolume st volumeID volumeZone = .ok volume →
          publishedNodeIDs volume = [] →
          controllerUnpublishVolume st volumeIdReq nodeIdReq = (.ok (), st, false)) ∧
       (∀ volume e, fakeGetVolume st volumeID volumeZone = .ok volume →
          publishedNodeIDs volume ≠ [] →
          fakeGetServer st nodeID nodeZone = .error e →
          codeFromScalewayError e = .notFound →
          controllerUnpublishVolume st volumeIdReq nodeIdReq = (.ok (), st, false)))) := by
  constructor
  · intro req volumeID nodeID volumeZone nodeZone volumeResp server hx hn hcaps hv hs
    refine ⟨?_, ?_, ?_, ?_⟩
    · intro hp
      simp only [controllerPublishVolume, hx, hn, hcaps, hv, hs, hp]
      rw [if_pos trivial]
    · intro id0 rest hp hne
      simp only [controllerPublishVolume, hx, hn, hcaps, hv, hs, hp]
      rw [if_neg hne]
    · intro hp hlen
      simp only [controllerPublishVolume, hx, hn, hcaps, hv, hs, hp]
      rw [if_pos hlen]
    · intro hp hlen
      simp only [controllerPublishVolume, hx, hn, hcaps, hv, hs, hp]
      rw [if_neg hlen]
      match hr : fakeAttachVolume st nodeID volumeID volumeZone with
      | (.ok u, st2) =>
        simp only [hr]
      | (.error e, st2) =>
        simp only [hr]
  · intro volumeIdReq nodeIdReq volumeID nodeID volumeZone nodeZone hx hn
    refine ⟨?_, ?_, ?_⟩
    · intro e hv hcode
      simp only [controllerUnpublishVolume, hx, hn, hv]
      rw [if_pos hcode]
    · intro volume hv hp
      simp only [controllerUnpublishVolume, hx, hn, hv]
      rw [if_pos hp]
    · intro volume e hv hp hsrv hcode
      simp only [controllerUnpublishVolume, hx, hn, hv]
      rw [if_neg hp]
      simp only [hsrv]
      rw [if_pos hcode]

/-- The sample volume of the C5 witness: attached to `c5Server` through an
`instance_server` reference. -/
def c5Volume : BlockVolume :=
  { id := "11111111-2222-3333-4444-555555555555".toList,
    name := "vol".toList, size := 5000000000,
    zone := "fr-par-1".toList, status := .inUse,
    parentSnapshotID := none,
    references := [{ refId := "0".toList, productResourceType := "instance_server".toList, productResourceID := "99999999-8888-7777-6666-555555555555".toList }] }

/-- The sample server of the C5 witness, holding `c5Volume` in slot 0. -/
def c5Server : InstanceServer :=
  { id := "99999999-8888-7777-6666-555555555555".toList,
    zone := "fr-par-1".toList,
    volumes := [{ slot := "0".toList, volumeId := "11111111-2222-3333-4444-555555555555".toList }] }

/-- The sample fake-client state of the C5 witness. -/
def c5State : FakeState :=
  { snapshots := [], nextID := 0, defaultZone := "fr-par-1".toList,
    volumes := [c5Volume], servers := [c5Server] }

/-- The sample publish request of the C5 witness: `c5Volume` to `c5Server`. -/
def c5Req : ControllerPublishVolumeRequest :=
  { volumeId := "fr-par-1/11111111-2222-3333-4444-555555555555".toList,
    nodeId := "fr-par-1/99999999-8888-7777-6666-555555555555".toList,
    volumeCapability := some { accessMode := .singleNodeWriter, accessType := some .mount } }

/-- C5 witness: a concrete state with one server and one volume whose
`instance_server` reference points at that server. Publishing the volume to
that node succeeds with the publish context, without calling attach and
leaving the state unchanged. -/
theorem C5_publish_unpublish_witness :
    controllerPublishVolume c5State c5Req =
      (.ok [(scwVolumeNameKey, "vol".toList),
            (scwVolumeIDKey, "11111111-2222-3333-4444-555555555555".toList),
            (scwVolumeZoneKey, "fr-par-1".toList)], c5State, false) :=
  ((C5_publish_unpublish c5State).1 c5Req
    ("11111111-2222-3333-4444-555555555555".toList)
    ("99999999-8888-7777-6666-555555555555".toList)
    ("fr-par-1".toList) ("fr-par-1".toList) c5Volume c5Server
    (by decide) (by decide) (by decide) (by decide) (by decide)).1 (by decide)

theorem lookupVolumeByNameInZones_none_head (st : FakeState) (name : GoStr) (size : Nat)
    (z : Zone) (zs : List Zone)
    (h : lookupVolumeByNameInZones st name size (z :: zs) = .ok none) :
    fakeGetVolumeByName st name size z = .error .volumeNotFound := by
  match hz : fakeGetVolumeByName st name size z with
  | .ok v =>
    simp only [lookupVolumeByNameInZones, hz] at h
    exact absurd h (by simp)
  | .error e =>
    simp only [lookupVolumeByNameInZones, hz] at h
    by_cases he : e = ScwErr.volumeNotFound
    · rw [he]
    · rw [if_neg he] at h
      exact absurd h (by simp)

theorem fakeGetVolumeByName_notFound (st : FakeState) (name : GoStr) (size : Nat) (z : Zone)
    (h : fakeGetVolumeByName st name size z = .error .volumeNotFound) :
    st.volumes.find? (fun v => decide (v.name = name ∧ v.zone = zoneOrDefault st z)) = none := by
  match hf : st.volumes.find?
      (fun v => decide (v.name = name ∧ v.zone = zoneOrDefault st z)) with
  | none => exact hf
  | some v =>
    simp only [fakeGetVolumeByName, hf] at h
    split at h
    · exact absurd h (by simp)
    · exact absurd h (by simp)

theorem lookupVolumeByNameInZones_after_create (st : FakeState) (name : GoStr)
    (size : Nat) (z1 : Zone) (zs : List Zone)
    (h1 : fakeGetVolumeByName st name size z1 = .error .volumeNotFound)
    (v : BlockVolume)
    (hvn : v.name = name) (hvz : v.zone = zoneOrDefault st z1) (hvs : v.size = size)
    (st1 : FakeState)
    (hst1vol : st1.volumes = st.volumes ++ [v])
    (hst1dz : st1.defaultZone = st.defaultZone) :
    lookupVolumeByNameInZones st1 name size (z1 :: zs) = .ok (some v) := by
  have hzz : zoneOrDefault st1 z1 = zoneOrDefault st z1 := by
    simp only [zoneOrDefault, hst1dz]
  have hfind : st1.volumes.find?
      (fun w => decide (w.name = name ∧ w.zone = zoneOrDefault st1 z1)) = some v := by
    rw [hst1vol, List.find?_append, hzz,
      fakeGetVolumeByName_notFound st name size z1 h1]
    simp [List.find?_cons, hvn, hvz]
  have hby : fakeGetVolumeByName st1 name size z1 = .ok v := by
    simp only [fakeGetVolumeByName, hfind]
    rw [if_neg (by simp [hvs])]
  simp only [lookupVolumeByNameInZones, hby]

theorem getOrCreateVolume_lookup_some (st : FakeState) (name snapshotID : GoStr)
    (size : Int) (zones : List Zone) (v : BlockVolume)
    (hpos : 0 < size)
    (h : lookupVolumeByNameInZones st name size.toNat
      (if zones = [] then [([] : GoStr)] else zones) = .ok (some v)) :
    getOrCreateVolume st name snapshotID size zones = (.ok v, st) := by
  simp only [getOrCreateVolume]
  rw [if_neg (by omega : ¬ size < 0)]
  simp only [h]

theorem getOrCreateVolume_lookup_err (st : FakeState) (name snapshotID : GoStr)
    (size : Int) (zones : List Zone) (e : ScwErr)
    (hpos : 0 < size)
    (h : lookupVolumeByNameInZones st name size.toNat
      (if zones = [] then [([] : GoStr)] else zones) = .error e) :
    getOrCreateVolume st name snapshotID size zones = (.error e, st) := by
  simp only [getOrCreateVolume]
  rw [if_neg (by omega : ¬ size < 0)]
  simp only [h]

theorem getOrCreateVolume_ok_inv (st : FakeState) (name : GoStr) (size : Int)
    (zones : List Zone) (z1 : Zone) (zs : List Zone) (v : BlockVolume) (st2 : FakeState)
    (hzz : (if zones = [] then [([] : GoStr)] else zones) = z1 :: zs)
    (hpos : 0 < size)
    (h : getOrCreateVolume st name [] size zones = (.ok v, st2)) :
    (lookupVolumeByNameInZones st name size.toNat (z1 :: zs) = .ok (some v) ∧ st2 = st) ∨
    (lookupVolumeByNameInZones st name size.toNat (z1 :: zs) = .ok none ∧
     v = { id := natRepr st.nextID, name := name, size := size.toNat,
           zone := zoneOrDefault st z1, status := .available,
           parentSnapshotID := none, references := [] } ∧
     st2 = { st with volumes := st.volumes ++ [v], nextID := st.nextID + 1 }) := by
  simp only [getOrCreateVolume, hzz] at h
  rw [if_neg (by omega : ¬ size < 0)] at h
  match hl : lookupVolumeByNameInZones st name size.toNat (z1 :: zs) with
  | .error e =>
    simp only [hl] at h
    rw [Prod.mk.injEq] at h
    exact absurd h.1 (by simp)
  | .ok (some w) =>
    simp only [hl] at h
    rw [Prod.mk.injEq] at h
    obtain ⟨h1, h2⟩ := h
    cases Except.ok.inj h1
    exact Or.inl ⟨rfl, h2.symm⟩
  | .ok none =>
    simp only [hl] at h
    have hc : fakeCreateVolume st name [] size z1 =
        (.ok { id := natRepr st.nextID, name := name, size := size.toNat,
               zone := zoneOrDefault st z1, status := .available,
               parentSnapshotID := none, references := [] },
         { st with
           volumes := st.volumes ++
             [{ id := natRepr st.nextID, name := name, size := size.toNat,
                zone := zoneOrDefault st z1, status := .available,
                parentSnapshotID := none, references := [] }],
           nextID := st.nextID + 1 }) := by
      simp only [fakeCreateVolume]
      rw [if_neg (by omega : ¬ size < 0), if_neg (by simp : ¬ ([] : GoStr) ≠ [])]
    simp only [createVolumeInZones, hc] at h
    rw [Prod.mk.injEq] at h
    obtain ⟨h1, h2⟩ := h
    cases (Except.ok.inj h1).symm
    exact Or.inr ⟨rfl, rfl, h2.symm⟩

theorem createVolumeRPC_unfold (namePfx : GoStr) (st : FakeState) (req : CreateVolumeRequest)
    (size : Int) (vt : Option Nat) (encrypted : Bool)
    (hname : ¬ req.name = [])
    (hcaps : validateVolumeCapabilities req.volumeCapabilities false = .ok ())
    (hparams : parseCreateVolumeParams req.parameters = .ok (vt, encrypted))
    (hcap : getVolumeRequestCapacity req.capacityRange = .ok size) :
    createVolumeRPC namePfx st req =
      match getOrCreateVolume st (namePfx ++ req.name) req.snapshotID size req.chosenZones with
      | (.error e, st2) => (.error (codeFromScalewayError e), st2)
      | (.ok volume, st2) =>
        (.ok { csiVolume volume with volumeContext :=
          [(encryptedKey, if encrypted then "true".toList else "false".toList)] }, st2) := by
  simp only [createVolumeRPC]
  rw [if_neg hname]
  simp only [hcaps, hparams, hcap]

/-- C1: CreateVolume idempotency. A successful CreateVolume with no snapshot
source, repeated on the resulting state, returns the same CSI volume (hence
the same `volume_id` and `capacity_bytes`) and leaves the state unchanged;
when the name lookup over the candidate zones finds an exact name-and-size
match, the RPC returns that existing volume and does not change the state;
and a name match whose size differs fails with `AlreadyExists`. -/
theorem C1_create_volume_idempotent (namePfx : GoStr) (st : FakeState)
    (req : CreateVolumeRequest) :
    (∀ v1 st1, req.snapshotID = [] →
      createVolumeRPC namePfx st req = (.ok v1, st1) →
      createVolumeRPC namePfx st1 req = (.ok v1, st1)) ∧
    (∀ size vt encrypted v, ¬ req.name = [] →
      validateVolumeCapabilities req.volumeCapabilities false = .ok () →
      parseCreateVolumeParams req.parameters = .ok (vt, encrypted) →
      getVolumeRequestCapacity req.capacityRange = .ok size →
      lookupVolumeByNameInZones st (namePfx ++ req.name) size.toNat
        (if req.chosenZones = [] then [([] : GoStr)] else req.chosenZones) = .ok (some v) →
      createVolumeRPC namePfx st req =
        (.ok { csiVolume v with volumeContext :=
          [(encryptedKey, if encrypted then "true".toList else "false".toList)] }, st)) ∧
    (∀ size vt encrypted, ¬ req.name = [] →
      validateVolumeCapabilities req.volumeCapabilities false = .ok () →
      parseCreateVolumeParams req.parameters = .ok (vt, encrypted) →
      getVolumeRequestCapacity req.capacityRange = .ok size →
      lookupVolumeByNameInZones st (namePfx ++ req.name) size.toNat
        (if req.chosenZones = [] then [([] : GoStr)] else req.chosenZones) =
          .error .volumeDifferentSize →
      createVolumeRPC namePfx st req = (.error .alreadyExists, st)) := by
  refine ⟨?_, ?_, ?_⟩
  · intro v1 st1 hsnap h
    by_cases hname : req.name = []
    · simp only [createVolumeRPC] at h
      rw [if_pos hname, Prod.mk.injEq] at h
      exact absurd h.1 (by simp)
    · match hcaps : validateVolumeCapabilities req.volumeCapabilities false with
      | .error e =>
        simp only [createVolumeRPC] at h
        rw [if_neg hname] at h
        simp only [hcaps] at h
        rw [Prod.mk.injEq] at h
        exact absurd h.1 (by simp)
      | .ok () =>
        match hparams : parseCreateVolumeParams req.parameters with
        | .error e =>
          simp only [createVolumeRPC] at h
          rw [if_neg hname] at h
          simp only [hcaps, hparams] at h
          rw [Prod.mk.injEq] at h
          exact absurd h.1 (by simp)
        | .ok (vt, encrypted) =>
          match hcap : getVolumeRequestCapacity req.capacityRange with
          | .error e =>
            simp only [createVolumeRPC] at h
            rw [if_neg hname] at h
            simp only [hcaps, hparams, hcap] at h
            rw [Prod.mk.injEq] at h
            exact absurd h.1 (by simp)
          | .ok size =>
            have hpos := getVolumeRequestCapacity_pos req.capacityRange size hcap
            rw [createVolumeRPC_unfold namePfx st req size vt encrypted hname hcaps
              hparams hcap] at h
            obtain ⟨z1, zs, hzz⟩ : ∃ z1 zs,
                (if req.chosenZones = [] then [([] : GoStr)] else req.chosenZones) =
                  z1 :: zs := by
              match req.chosenZones with
              | [] => exact ⟨[], [], by simp⟩
              | z :: zs => exact ⟨z, zs, by simp⟩
            match hg : getOrCreateVolume st (namePfx ++ req.name) req.snapshotID size
                req.chosenZones with
            | (.error e, st2) =>
              simp only [hg] at h
              rw [Prod.mk.injEq] at h
              exact absurd h.1 (by simp)
            | (.ok volume, st2) =>
              simp only [hg] at h
              rw [Prod.mk.injEq] at h
              obtain ⟨hv1, hst1⟩ := h
              rw [hsnap] at hg
              rcases getOrCreateVolume_ok_inv st (namePfx ++ req.name) size
                  req.chosenZones z1 zs volume st2 hzz hpos hg with
                ⟨hl, hst⟩ | ⟨hl, hvol, hst⟩
              · have hst' : st1 = st := by rw [← hst1, hst]
                rw [hst']
                rw [createVolumeRPC_unfold namePfx st req size vt encrypted hname hcaps
                  hparams hcap]
                have hG2 : getOrCreateVolume st (namePfx ++ req.name) req.snapshotID size
                    req.chosenZones = (.ok volume, st) := by
                  rw [hsnap]
                  exact getOrCreateVolume_lookup_some st (namePfx ++ req.name) [] size
                    req.chosenZones volume hpos (by rw [hzz]; exact hl)
                simp only [hG2]
                rw [Prod.mk.injEq]
                exact ⟨hv1, rfl⟩
              · have hst' : st1 =
                    { st with volumes := st.volumes ++ [volume],
                              nextID := st.nextID + 1 } := by
                  rw [← hst1, hst]
                have hhead := lookupVolumeByNameInZones_none_head st
                  (namePfx ++ req.name) size.toNat z1 zs hl
                have hlook2 : lookupVolumeByNameInZones st1 (namePfx ++ req.name)
                    size.toNat (z1 :: zs) = .ok (some volume) := by
                  refine lookupVolumeByNameInZones_after_create st (namePfx ++ req.name)
                    size.toNat z1 zs hhead volume ?_ ?_ ?_ st1 ?_ ?_
                  · rw [hvol]
                  · rw [hvol]
                  · rw [hvol]
                  · rw [hst']
                  · rw [hst']
                rw [createVolumeRPC_unfold namePfx st1 req size vt encrypted hname hcaps
                  hparams hcap]
                have hG2 : getOrCreateVolume st1 (namePfx ++ req.name) req.snapshotID size
                    req.chosenZones = (.ok volume, st1) := by
                  rw [hsnap]
                  exact getOrCreateVolume_lookup_some st1 (namePfx ++ req.name) [] size
                    req.chosenZones volume hpos (by rw [hzz]; exact hlook2)
                simp only [hG2]
                rw [Prod.mk.injEq]
                exact ⟨hv1, rfl⟩
  · intro size vt encrypted v hname hcaps hparams hcap hl
    have hpos := getVolumeRequestCapacity_pos req.capacityRange size hcap
    rw [createVolumeRPC_unfold namePfx st req size vt encrypted hname hcaps hparams hcap]
    have hG : getOrCreateVolume st (namePfx ++ req.name) req.snapshotID size
        req.chosenZones = (.ok v, st) :=
      getOrCreateVolume_lookup_some st (namePfx ++ req.name) req.snapshotID size
        req.chosenZones v hpos hl
    simp only [hG]
  · intro size vt encrypted hname hcaps hparams hcap hl
    have hpos := getVolumeRequestCapacity_pos req.capacityRange size hcap
    rw [createVolumeRPC_unfold namePfx st req size vt encrypted hname hcaps hparams hcap]
    have hG : getOrCreateVolume st (namePfx ++ req.name) req.snapshotID size
        req.chosenZones = (.error .volumeDifferentSize, st) :=
      getOrCreateVolume_lookup_err st (namePfx ++ req.name) req.snapshotID size
        req.chosenZones .volumeDifferentSize hpos hl
    simp only [hG]
    rfl

/-- The initial empty fake-client state of the C1 witness. -/
def c1State0 : FakeState :=
  { snapshots := [], volumes := [], servers := [],
    defaultZone := "fr-par-1".toList, nextID := 0 }

/-- The CreateVolume request of the C1 witness: a 2 GB volume named `vol`
with a mount capability, no snapshot source, candidate zone `fr-par-1`. -/
def c1Req : CreateVolumeRequest :=
  { name := "vol".toList,
    capacityRange := some { requiredBytes := 2000000000, limitBytes := 0 },
    volumeCapabilities := [{ accessMode := .singleNodeWriter, accessType := some .mount }],
    parameters := [], snapshotID := [],
    chosenZones := ["fr-par-1".toList] }

/-- The volume created by the first C1 witness call. -/
def c1NewVolume : BlockVolume :=
  { id := "0".toList, name := "vol".toList, size := 2000000000,
    zone := "fr-par-1".toList, status := .available,
    parentSnapshotID := none, references := [] }

/-- The state after the first C1 witness call. -/
def c1State1 : FakeState :=
  { snapshots := [], volumes := [c1NewVolume], servers := [],
    defaultZone := "fr-par-1".toList, nextID := 1 }

/-- The CSI volume returned by both C1 witness calls. -/
def c1CSIVolume : CSIVolume :=
  { volumeId := "fr-par-1/0".toList, capacityBytes := 2000000000,
    accessibleTopology := [(ZoneTopologyKey, "fr-par-1".toList)],
    contentSourceSnapshotId := none,
    volumeContext := [(encryptedKey, "false".toList)] }

/-- C1 witness: starting from the empty state, the first CreateVolume call
creates the volume; the second call with the same request returns the same
CSI volume and leaves the state unchanged. -/
theorem C1_create_volume_idempotent_witness :
    createVolumeRPC [] c1State1 c1Req = (.ok c1CSIVolume, c1State1) :=
  (C1_create_volume_idempotent [] c1State0 c1Req).1 c1CSIVolume c1State1
    (by decide) (by decide)

end ScalewayCSI
